import Mathlib

/-!
# Verification of the azul frame-construction and GPU-resource-lifecycle pipeline

A shallow embedding of the core of the `azul` repository
(`src/azul/display_list.rs`, `src/azul-core/gl.rs`), together with theorems
settling the specification claims about the texture registry, the rendering
order resolver, the scroll-clip analyzer, the display-list builder and the
shader constructor.

Modelling conventions:
* Rust `f32` values are modelled as rationals (`ℚ`); all arithmetic the
  embedded code performs on them is addition, subtraction, `min`/`max`,
  comparison and round-to-nearest, which rationals model exactly.
* Rust `HashMap`/`BTreeMap` values are modelled as association lists
  (`HMap` below).  Insertion places the new binding at the head of the list
  and removes a previous binding for the same key; iteration order of a
  Rust `HashMap` is unspecified, so any concrete order is a valid model.
* Global mutable state (`ACTIVE_GL_TEXTURES`, the id counters) is modelled
  by threading an explicit state value through the functions that touch it.
* Types that live in the repository's `azul-css` / `azul-core` crates
  (whose sources are not part of the `src/` snapshot) are reconstructed
  from their use sites and from the specification; each such definition
  carries a doc comment saying so.
-/

namespace Azul

/-! ## Association-list model of `FastHashMap` / `BTreeMap` -/

/-- Model of Rust's `FastHashMap` (and of `BTreeMap` where only keyed access
matters): an association list of key-value pairs.  `insert` replaces any
existing binding for the key. -/
structure HMap (α β : Type) where
  entries : List (α × β)

namespace HMap

variable {α β : Type} [DecidableEq α]

/-- The empty map (`FastHashMap::new`, `FastHashMap::default`). -/
def empty : HMap α β := ⟨[]⟩

/-- `HashMap::get`. -/
def get? (m : HMap α β) (k : α) : Option β :=
  (m.entries.find? (fun e => decide (e.1 = k))).map (fun e => e.2)

/-- `HashMap::insert`: the key is bound to `v`; a previous binding for the
same key is dropped.  (A Rust `HashMap` is unordered; this model keeps the
most recent binding at the head.) -/
def insert (m : HMap α β) (k : α) (v : β) : HMap α β :=
  ⟨(k, v) :: m.entries.filter (fun e => decide (e.1 ≠ k))⟩

/-- `HashMap::remove`. -/
def remove (m : HMap α β) (k : α) : HMap α β :=
  ⟨m.entries.filter (fun e => decide (e.1 ≠ k))⟩

/-- The `map.entry(k).or_insert_with(default)` + in-place mutation pattern:
the binding of `k` (or `d` if absent) is replaced by `f` of it. -/
def alter (m : HMap α β) (k : α) (d : β) (f : β → β) : HMap α β :=
  m.insert k (f ((m.get? k).getD d))

/-- `HashMap::retain`. -/
def retain (m : HMap α β) (p : α → β → Bool) : HMap α β :=
  ⟨m.entries.filter (fun e => p e.1 e.2)⟩

/-- `HashMap::values`. -/
def values (m : HMap α β) : List β :=
  m.entries.map (fun e => e.2)

theorem find?_filter_ne_eq (l : List (α × β)) (k k' : α) (h : k' ≠ k) :
    (l.filter (fun e => decide (e.1 ≠ k))).find? (fun e => decide (e.1 = k')) =
      l.find? (fun e => decide (e.1 = k')) := by
  induction l with
  | nil => rfl
  | cons e rest ih =>
    rw [List.filter_cons]
    by_cases he : e.1 = k
    · rw [if_neg (by simp [he]), List.find?_cons_of_neg _ (by simp [he, Ne.symm h]), ih]
    · rw [if_pos (by simp [he])]
      by_cases he' : e.1 = k'
      · rw [List.find?_cons_of_pos _ (by simp [he']),
          List.find?_cons_of_pos _ (by simp [he'])]
      · rw [List.find?_cons_of_neg _ (by simp [he']),
          List.find?_cons_of_neg _ (by simp [he']), ih]

theorem find?_filter_ne_self (l : List (α × β)) (k : α) :
    (l.filter (fun e => decide (e.1 ≠ k))).find? (fun e => decide (e.1 = k)) = none := by
  induction l with
  | nil => rfl
  | cons e rest ih =>
    rw [List.filter_cons]
    by_cases he : e.1 = k
    · rw [if_neg (by simp [he])]; exact ih
    · rw [if_pos (by simp [he]), List.find?_cons_of_neg _ (by simp [he])]; exact ih

theorem get?_cons_self (l : List (α × β)) (k : α) (v : β) :
    (HMap.mk ((k, v) :: l)).get? k = some v := by
  simp only [get?]
  rw [List.find?_cons_of_pos _ (by simp)]
  rfl

theorem get?_insert_self (m : HMap α β) (k : α) (v : β) :
    (m.insert k v).get? k = some v :=
  get?_cons_self _ k v

theorem get?_insert_ne (m : HMap α β) {k k' : α} (v : β) (h : k' ≠ k) :
    (m.insert k v).get? k' = m.get? k' := by
  simp only [insert, get?]
  rw [List.find?_cons_of_neg _ (by simp [Ne.symm h]), find?_filter_ne_eq _ _ _ h]

theorem get?_remove_self (m : HMap α β) (k : α) :
    (m.remove k).get? k = none := by
  simp [remove, get?, find?_filter_ne_self]

theorem get?_remove_ne (m : HMap α β) {k k' : α} (h : k' ≠ k) :
    (m.remove k).get? k' = m.get? k' := by
  simp only [remove, get?, find?_filter_ne_eq _ _ _ h]

end HMap

/-! ## Basic ids and geometry (`azul-core`, `azul-css`)

`Epoch`, `ExternalImageId`, `PipelineId` live in `azul-core/app_resources`
and `azul-core/callbacks`, which are not part of the `src/` snapshot. -/

/-- Modelled from the spec: "Epoch — monotonically increasing per-pipeline
frame counter" (`azul-core::app_resources::Epoch`). -/
abbrev Epoch := Nat

/-- Modelled from the spec: "ExternalImageId — opaque, globally unique handle
minted whenever a GPU texture is registered; never reused"
(`azul-core::app_resources::ExternalImageId`).  Minting is modelled by the
`next_external_image_id` counter of `RegistryState`. -/
abbrev ExternalImageId := Nat

/-- Modelled from the spec: "Pipeline — one independently rendered surface
with its own resource namespace" (`azul-core::callbacks::PipelineId`). -/
abbrev PipelineId := Nat

/-- `pub type GLuint = u32` (src/azul-core/gl.rs). -/
abbrev GLuint := Nat

/-- Node index into the arena (`azul::id_tree::NodeId`, not in `src/`;
modelled as a plain index per the spec's "in-memory node id"). -/
abbrev NodeId := Nat

/-- `azul-core::window::LogicalSize` (f32 width/height, modelled as ℚ). -/
structure LogicalSize where
  width : ℚ
  height : ℚ

/-- `azul_css::LayoutPoint` (f32 coordinates, modelled as ℚ). -/
structure LayoutPoint where
  x : ℚ
  y : ℚ

/-- `azul_css::LayoutSize` (f32 extents, modelled as ℚ). -/
structure LayoutSize where
  width : ℚ
  height : ℚ

/-- `azul_css::LayoutRect`. -/
structure LayoutRect where
  origin : LayoutPoint
  size : LayoutSize

/-- `azul-core::ui_solver::ResolvedOffsets` (per-side resolved offsets, f32,
modelled as ℚ). -/
structure ResolvedOffsets where
  top : ℚ
  left : ℚ
  right : ℚ
  bottom : ℚ

/-- Rust `f32::round`: round half away from zero, then `as isize`. -/
def roundRust (x : ℚ) : ℤ :=
  if 0 ≤ x then ⌊x + 1/2⌋ else -⌊-x + 1/2⌋

/-! ## Texture registry (src/azul-core/gl.rs lines 24-112) -/

/-- `azul-core::gl::Texture` (src/azul-core/gl.rs lines 984-991).  The
`gl_context : Rc<dyn Gl>` field (only used by the destructor) is not part of
the value model. -/
structure Texture where
  texture_id : GLuint
  size : LogicalSize

/-- `pub(crate) type GlTextureStorage = FastHashMap<Epoch,
FastHashMap<ExternalImageId, Texture>>` (src/azul-core/gl.rs line 24). -/
abbrev GlTextureStorage := HMap Epoch (HMap ExternalImageId Texture)

/-- The process-wide mutable state touched by the registry functions:
`static mut ACTIVE_GL_TEXTURES` (src/azul-core/gl.rs line 41) plus the
counter backing `ExternalImageId::new()`. -/
structure RegistryState where
  active_gl_textures : Option (HMap PipelineId GlTextureStorage)
  next_external_image_id : Nat

/-- `insert_into_active_gl_textures` (src/azul-core/gl.rs lines 47-62):
mints a fresh `ExternalImageId`, lazily initialises the registry, and inserts
the texture under `pipeline_id → epoch → id`. -/
def insert_into_active_gl_textures (st : RegistryState) (pipeline_id : PipelineId)
    (epoch : Epoch) (texture : Texture) : ExternalImageId × RegistryState :=
  let external_image_id : ExternalImageId := st.next_external_image_id
  let active_textures := st.active_gl_textures.getD HMap.empty
  let active_textures := active_textures.alter pipeline_id HMap.empty
    (fun active_epochs => active_epochs.alter epoch HMap.empty
      (fun active_textures_for_epoch =>
        active_textures_for_epoch.insert external_image_id texture))
  (external_image_id,
   { active_gl_textures := some active_textures,
     next_external_image_id := st.next_external_image_id + 1 })

/-- `get_opengl_texture` (src/azul-core/gl.rs lines 74-80): search all epoch
maps of all pipelines for the key. -/
def get_opengl_texture (st : RegistryState) (image_key : ExternalImageId) :
    Option (GLuint × (ℚ × ℚ)) :=
  match st.active_gl_textures with
  | none => none
  | some active_textures =>
    ((active_textures.values.flatMap (fun active_pipeline => active_pipeline.values)).findSome?
      (fun active_epoch => active_epoch.get? image_key)).map
      (fun tex => (tex.texture_id, (tex.size.width, tex.size.height)))

/-- `gl_textures_remove_active_pipeline` (src/azul-core/gl.rs lines 82-90). -/
def gl_textures_remove_active_pipeline (st : RegistryState) (pipeline_id : PipelineId) :
    RegistryState :=
  match st.active_gl_textures with
  | none => st
  | some active_textures =>
    { st with active_gl_textures := some (active_textures.remove pipeline_id) }

/-- `gl_textures_remove_epochs_from_pipeline` (src/azul-core/gl.rs lines
94-107): for the given pipeline, `retain(|gl_texture_epoch, _|
*gl_texture_epoch > epoch)`. -/
def gl_textures_remove_epochs_from_pipeline (st : RegistryState)
    (pipeline_id : PipelineId) (epoch : Epoch) : RegistryState :=
  match st.active_gl_textures with
  | none => st
  | some active_textures =>
    match active_textures.get? pipeline_id with
    | none => st
    | some active_epochs =>
      { st with active_gl_textures := some (active_textures.insert pipeline_id
          (active_epochs.retain (fun gl_texture_epoch _ => decide (gl_texture_epoch > epoch)))) }

/-- `gl_textures_clear_opengl_cache` (src/azul-core/gl.rs lines 110-112). -/
def gl_textures_clear_opengl_cache (st : RegistryState) : RegistryState :=
  { st with active_gl_textures := none }

/-- C7: registering a texture and immediately performing a registry-wide
lookup by the returned `ExternalImageId` finds exactly the texture inserted,
returning its raw GPU handle and its width and height, for every pipeline id,
epoch, texture and prior registry state. -/
theorem register_then_lookup_roundtrip (st : RegistryState) (pipeline_id : PipelineId)
    (epoch : Epoch) (texture : Texture) :
    get_opengl_texture (insert_into_active_gl_textures st pipeline_id epoch texture).2
      (insert_into_active_gl_textures st pipeline_id epoch texture).1 =
      some (texture.texture_id, (texture.size.width, texture.size.height)) := by
  simp only [insert_into_active_gl_textures, get_opengl_texture, HMap.alter]
  simp only [HMap.insert, HMap.values, List.map_cons, List.flatMap_cons, List.cons_append,
    List.findSome?_cons]
  rw [HMap.get?_cons_self]
  rfl

/-- C1 (code bug): end-to-end scenario B from the spec.  Register texture T at
epoch 5 and texture U at epoch 7 for pipeline 0, then call
`gl_textures_remove_epochs_from_pipeline(0, 7)`.  The function's own doc
comment says it destroys textures **older** than the watermark epoch, and the
spec says the watermark epoch itself is retained, but the code retains only
epochs strictly greater than the watermark (`*gl_texture_epoch > epoch`), so
the lookup of U (registered at the watermark epoch 7) comes back empty. -/
theorem evict_removes_watermark_epoch :
    (let st0 : RegistryState := { active_gl_textures := none, next_external_image_id := 0 }
     let r1 := insert_into_active_gl_textures st0 0 5 ⟨1, ⟨16, 16⟩⟩
     let r2 := insert_into_active_gl_textures r1.2 0 7 ⟨2, ⟨32, 32⟩⟩
     let st3 := gl_textures_remove_epochs_from_pipeline r2.2 0 7
     get_opengl_texture st3 r2.1 = none ∧ get_opengl_texture st3 r1.1 = none) := by
  decide

/-! ## Shader construction (src/azul-core/gl.rs lines 1434-1615, 1750-1764) -/

/-- `VertexShaderCompileError` (src/azul-core/gl.rs lines 1454-1457). -/
structure VertexShaderCompileError where
  error_id : Int
  info_log : String

/-- `FragmentShaderCompileError` (src/azul-core/gl.rs lines 1468-1471). -/
structure FragmentShaderCompileError where
  error_id : Int
  info_log : String

/-- `GlShaderCompileError` (src/azul-core/gl.rs lines 1482-1485). -/
inductive GlShaderCompileError where
  | vertex (err : VertexShaderCompileError)
  | fragment (err : FragmentShaderCompileError)

/-- `GlShaderLinkError` (src/azul-core/gl.rs lines 1504-1507). -/
structure GlShaderLinkError where
  error_id : Int
  info_log : String

/-- `GlShaderCreateError` (src/azul-core/gl.rs lines 1518-1522). -/
inductive GlShaderCreateError where
  | compile (err : GlShaderCompileError)
  | link (err : GlShaderLinkError)
  | noShaderCompiler

/-- `GlShader` (src/azul-core/gl.rs lines 1434-1437); the `gl_context` field
is not part of the value model. -/
structure GlShader where
  program_id : GLuint

/-- The responses of the GPU driver (`Rc<dyn Gl>`) to the queries
`GlShader::new` makes: `get_boolean_v(SHADER_COMPILER)`,
`get_shader_iv(COMPILE_STATUS)`, `get_shader_info_log`,
`get_program_iv(LINK_STATUS)` and `get_program_info_log`.  The driver is an
external capability object; its answers are parameters of the model. -/
structure GlCtx where
  shader_compiler_supported : Bool
  compile_status : GLuint → Int
  shader_info_log : GLuint → String
  link_status : GLuint → Int
  program_info_log : GLuint → String

/-- The GPU-object bookkeeping of the driver: handles handed out by
`create_shader` / `create_program` and the set of created-but-not-deleted
handles ("live" GPU objects, the ones a failure path could leak). -/
structure GlObjects where
  next_handle : GLuint
  live : List GLuint

/-- `gl_context.create_shader(..)` / `create_program()`: hands out a fresh
handle and marks it live. -/
def GlObjects.create (s : GlObjects) : GLuint × GlObjects :=
  (s.next_handle, ⟨s.next_handle + 1, s.next_handle :: s.live⟩)

/-- `gl_context.delete_shader(..)` / `delete_program(..)`. -/
def GlObjects.delete (s : GlObjects) (h : GLuint) : GlObjects :=
  ⟨s.next_handle, s.live.erase h⟩

/-- `gl::TRUE as i32`. -/
def glTRUE : Int := 1

theorem add_pos_ne (n k : Nat) (h : 0 < k) : n + k ≠ n := by omega

/-- `get_gl_shader_error` (src/azul-core/gl.rs lines 1751-1756): queries
`COMPILE_STATUS`, `None` when it equals `gl::TRUE`. -/
def get_gl_shader_error (ctx : GlCtx) (shader_object : GLuint) : Option Int :=
  let err_code := ctx.compile_status shader_object
  if err_code = glTRUE then none else some err_code

/-- `get_gl_program_error` (src/azul-core/gl.rs lines 1759-1764). -/
def get_gl_program_error (ctx : GlCtx) (shader_object : GLuint) : Option Int :=
  let err_code := ctx.link_status shader_object
  if err_code = glTRUE then none else some err_code

/-- `GlShader::new` (src/azul-core/gl.rs lines 1546-1615).  The
`debug_assertions` flag models `#[cfg(debug_assertions)]`: the three error
checks are compiled in only in a debug build.  `shader_source` /
`compile_shader` / `attach_shader` / `link_program` create or delete no GPU
objects and are omitted from the object ledger. -/
def GlShader.new (debug_assertions : Bool) (ctx : GlCtx) (st : GlObjects) :
    Except GlShaderCreateError GlShader × GlObjects :=
  if ctx.shader_compiler_supported = false then
    (Except.error GlShaderCreateError.noShaderCompiler, st)
  else
    let (vertex_shader_object, st1) := st.create
    match (if debug_assertions then get_gl_shader_error ctx vertex_shader_object else none) with
    | some error_id =>
      let info_log := ctx.shader_info_log vertex_shader_object
      (Except.error (GlShaderCreateError.compile (GlShaderCompileError.vertex
        ⟨error_id, info_log⟩)), st1.delete vertex_shader_object)
    | none =>
      let (fragment_shader_object, st2) := st1.create
      match (if debug_assertions then get_gl_shader_error ctx fragment_shader_object else none) with
      | some error_id =>
        let info_log := ctx.shader_info_log fragment_shader_object
        (Except.error (GlShaderCreateError.compile (GlShaderCompileError.fragment
          ⟨error_id, info_log⟩)),
         (st2.delete vertex_shader_object).delete fragment_shader_object)
      | none =>
        let (program_id, st3) := st2.create
        match (if debug_assertions then get_gl_program_error ctx program_id else none) with
        | some error_id =>
          let info_log := ctx.program_info_log program_id
          (Except.error (GlShaderCreateError.link ⟨error_id, info_log⟩),
           ((st3.delete vertex_shader_object).delete fragment_shader_object).delete program_id)
        | none =>
          (Except.ok ⟨program_id⟩,
           (st3.delete vertex_shader_object).delete fragment_shader_object)

/-- What each structured error of `GlShader.new` must carry, given the driver
`ctx` and the handle counter `h0` at entry: the vertex shader object is `h0`,
the fragment shader object `h0 + 1` and the program object `h0 + 2`, and each
error holds the corresponding stage's numeric status code (≠ `gl::TRUE`) and
diagnostic text. -/
def shaderErrorSpec (ctx : GlCtx) (h0 : GLuint) : GlShaderCreateError → Prop
  | GlShaderCreateError.noShaderCompiler => ctx.shader_compiler_supported = false
  | GlShaderCreateError.compile (GlShaderCompileError.vertex e) =>
      e.error_id = ctx.compile_status h0 ∧ e.info_log = ctx.shader_info_log h0 ∧
      e.error_id ≠ glTRUE
  | GlShaderCreateError.compile (GlShaderCompileError.fragment e) =>
      e.error_id = ctx.compile_status (h0 + 1) ∧ e.info_log = ctx.shader_info_log (h0 + 1) ∧
      e.error_id ≠ glTRUE ∧ ctx.compile_status h0 = glTRUE
  | GlShaderCreateError.link e =>
      e.error_id = ctx.link_status (h0 + 2) ∧ e.info_log = ctx.program_info_log (h0 + 2) ∧
      e.error_id ≠ glTRUE ∧ ctx.compile_status h0 = glTRUE ∧
      ctx.compile_status (h0 + 1) = glTRUE

/-- C8 counterexample: the claim as stated is unconditional, but the three
error checks of `GlShader::new` are compiled only under
`#[cfg(debug_assertions)]` (src/azul-core/gl.rs lines 1571, 1585, 1601).  In
a release build (`debug_assertions := false`), a driver whose vertex-stage
compile status is 0 (failed) still gets `Ok` back — no structured error is
returned at all. -/
theorem glshader_new_release_ignores_compile_failure :
    (GlShader.new false
      ⟨true, fun _ => 0, fun _ => "bad", fun _ => 1, fun _ => ""⟩
      ⟨0, []⟩).1 = Except.ok ⟨2⟩ := rfl

/-- C8 (amended): in a debug build — the `cfg(debug_assertions)`
configuration, under which alone the compile/link status checks exist —
`GlShader::new` returns a structured error that distinguishes vertex-stage,
fragment-stage and link-stage failure, each carrying the stage's numeric
status code and diagnostic text, and on every failure path every GPU object
created so far has been deleted again — no GPU handle stays live when
construction fails.  (In release builds the checks are compiled out and
compile/link failures go undetected; see the counterexample above.) -/
theorem glshader_new_failure_atomic (ctx : GlCtx) (st : GlObjects)
    (e : GlShaderCreateError) (hlive : st.live = [])
    (herr : (GlShader.new true ctx st).1 = Except.error e) :
    (GlShader.new true ctx st).2.live = [] ∧ shaderErrorSpec ctx st.next_handle e := by
  by_cases hsup : ctx.shader_compiler_supported = false
  · simp only [GlShader.new, if_pos hsup] at herr ⊢
    cases herr
    exact ⟨hlive, hsup⟩
  · by_cases hv : ctx.compile_status st.next_handle = glTRUE
    · by_cases hf : ctx.compile_status (st.next_handle + 1) = glTRUE
      · by_cases hl : ctx.link_status (st.next_handle + 1 + 1) = glTRUE
        · exfalso
          simp [GlShader.new, hsup, GlObjects.create, get_gl_shader_error,
            get_gl_program_error, hv, hf, hl] at herr
        · simp only [GlShader.new, if_neg hsup, GlObjects.create, get_gl_shader_error,
            get_gl_program_error, if_pos hv, if_pos hf, if_true, if_neg hl,
            GlObjects.delete] at herr ⊢
          cases herr
          constructor
          · rw [hlive]
            have h1 : st.next_handle + 1 ≠ st.next_handle := add_pos_ne _ 1 Nat.one_pos
            have h2 : st.next_handle + 1 + 1 ≠ st.next_handle := add_pos_ne _ 2 (by norm_num)
            have h3 : st.next_handle + 1 + 1 ≠ st.next_handle + 1 := add_pos_ne _ 1 Nat.one_pos
            simp [List.erase_cons, h1, h2, h3]
          · exact ⟨rfl, rfl, hl, hv, hf⟩
      · simp only [GlShader.new, if_neg hsup, GlObjects.create, get_gl_shader_error,
          if_pos hv, if_true, if_neg hf, GlObjects.delete] at herr ⊢
        cases herr
        constructor
        · rw [hlive]
          have h1 : st.next_handle + 1 ≠ st.next_handle := add_pos_ne _ 1 Nat.one_pos
          simp [List.erase_cons, h1]
        · exact ⟨rfl, rfl, hf, hv⟩
    · simp only [GlShader.new, if_neg hsup, GlObjects.create, get_gl_shader_error,
        if_neg hv, if_true, GlObjects.delete] at herr ⊢
      cases herr
      constructor
      · rw [hlive]
        simp
      · exact ⟨rfl, rfl, hv⟩

/-- C8 witness: a driver that reports shader-compiler support but a failing
vertex-stage compile status produces the vertex compile error and leaves no
live GPU object. -/
theorem glshader_new_failure_atomic_witness :
    (GlShader.new true
      ⟨true, fun _ => 0, fun _ => "bad", fun _ => 1, fun _ => ""⟩
      ⟨7, []⟩).2.live = [] ∧
    shaderErrorSpec ⟨true, fun _ => 0, fun _ => "bad", fun _ => 1, fun _ => ""⟩ 7
      (GlShaderCreateError.compile (GlShaderCompileError.vertex ⟨0, "bad"⟩)) :=
  glshader_new_failure_atomic
    ⟨true, fun _ => 0, fun _ => "bad", fun _ => 1, fun _ => ""⟩
    ⟨7, []⟩
    (GlShaderCreateError.compile (GlShaderCompileError.vertex ⟨0, "bad"⟩))
    rfl rfl

/-! ## CSS property model (`azul-css`, reconstructed from its use in
src/azul/display_list.rs) -/

/-- Modelled from the spec and from the `azul-css` use sites:
`CssPropertyValue<T>` — a CSS value that is either a keyword
(`auto`/`none`/`inherit`/`initial`) or an exact value. -/
inductive CssPropertyValue (α : Type) where
  | auto
  | none
  | inherit
  | initial
  | exact (v : α)

/-- Modelled from the spec and the `test_overflow_parsing` test
(src/azul/display_list.rs lines 1182-1205): `get_property_or_default`
resolves `Auto` to the type's default value and `Exact` to the carried
value; the remaining keywords resolve to no value. -/
def CssPropertyValue.get_property_or_default {α : Type} [Inhabited α] :
    CssPropertyValue α → Option α
  | CssPropertyValue.auto => some default
  | CssPropertyValue.exact c => some c
  | _ => Option.none

/-- `azul_css::LayoutPosition`; modelled from its use in
`sort_children_by_position` and `GetStyle::get_style`
(src/azul/display_list.rs lines 149-154, 625-645).  The default is
`static` (non-absolute), per the spec's "position defaulting to
non-absolute when unset". -/
inductive LayoutPosition where
  | static
  | relative
  | absolute
deriving DecidableEq

instance : Inhabited LayoutPosition := ⟨LayoutPosition.static⟩

/-- `azul_css::Overflow`; modelled from its use in `GetStyle::get_style`
(src/azul/display_list.rs lines 168-174) and
`get_nodes_that_need_scroll_clip` (line 688).  The default is `auto`
(which clips), per the src test `test_overflow_parsing`. -/
inductive Overflow where
  | scroll
  | auto
  | hidden
  | visible
deriving DecidableEq

instance : Inhabited Overflow := ⟨Overflow.auto⟩

set_option maxHeartbeats 1600000 in
/-- `azul_css::CssProperty`: the full variant list, reconstructed from the
exhaustive match of `apply_style_property` (src/azul/display_list.rs lines
1095-1180).  Payload types other than the claim-relevant
`LayoutPosition`/`Overflow` are opaque to every claim and are modelled as
`CssPropertyValue ℤ`. -/
inductive CssProperty where
  | Display (v : CssPropertyValue ℤ)
  | Float (v : CssPropertyValue ℤ)
  | BoxSizing (v : CssPropertyValue ℤ)
  | TextColor (v : CssPropertyValue ℤ)
  | FontSize (v : CssPropertyValue ℤ)
  | FontFamily (v : CssPropertyValue ℤ)
  | TextAlign (v : CssPropertyValue ℤ)
  | LetterSpacing (v : CssPropertyValue ℤ)
  | LineHeight (v : CssPropertyValue ℤ)
  | WordSpacing (v : CssPropertyValue ℤ)
  | TabWidth (v : CssPropertyValue ℤ)
  | Cursor (v : CssPropertyValue ℤ)
  | Width (v : CssPropertyValue ℤ)
  | Height (v : CssPropertyValue ℤ)
  | MinWidth (v : CssPropertyValue ℤ)
  | MinHeight (v : CssPropertyValue ℤ)
  | MaxWidth (v : CssPropertyValue ℤ)
  | MaxHeight (v : CssPropertyValue ℤ)
  | Position (v : CssPropertyValue LayoutPosition)
  | Top (v : CssPropertyValue ℤ)
  | Bottom (v : CssPropertyValue ℤ)
  | Right (v : CssPropertyValue ℤ)
  | Left (v : CssPropertyValue ℤ)
  | FlexWrap (v : CssPropertyValue ℤ)
  | FlexDirection (v : CssPropertyValue ℤ)
  | FlexGrow (v : CssPropertyValue ℤ)
  | FlexShrink (v : CssPropertyValue ℤ)
  | JustifyContent (v : CssPropertyValue ℤ)
  | AlignItems (v : CssPropertyValue ℤ)
  | AlignContent (v : CssPropertyValue ℤ)
  | BackgroundContent (v : CssPropertyValue ℤ)
  | BackgroundPosition (v : CssPropertyValue ℤ)
  | BackgroundSize (v : CssPropertyValue ℤ)
  | BackgroundRepeat (v : CssPropertyValue ℤ)
  | OverflowX (v : CssPropertyValue Overflow)
  | OverflowY (v : CssPropertyValue Overflow)
  | PaddingTop (v : CssPropertyValue ℤ)
  | PaddingLeft (v : CssPropertyValue ℤ)
  | PaddingRight (v : CssPropertyValue ℤ)
  | PaddingBottom (v : CssPropertyValue ℤ)
  | MarginTop (v : CssPropertyValue ℤ)
  | MarginLeft (v : CssPropertyValue ℤ)
  | MarginRight (v : CssPropertyValue ℤ)
  | MarginBottom (v : CssPropertyValue ℤ)
  | BorderTopLeftRadius (v : CssPropertyValue ℤ)
  | BorderTopRightRadius (v : CssPropertyValue ℤ)
  | BorderBottomLeftRadius (v : CssPropertyValue ℤ)
  | BorderBottomRightRadius (v : CssPropertyValue ℤ)
  | BorderTopColor (v : CssPropertyValue ℤ)
  | BorderRightColor (v : CssPropertyValue ℤ)
  | BorderLeftColor (v : CssPropertyValue ℤ)
  | BorderBottomColor (v : CssPropertyValue ℤ)
  | BorderTopStyle (v : CssPropertyValue ℤ)
  | BorderRightStyle (v : CssPropertyValue ℤ)
  | BorderLeftStyle (v : CssPropertyValue ℤ)
  | BorderBottomStyle (v : CssPropertyValue ℤ)
  | BorderTopWidth (v : CssPropertyValue ℤ)
  | BorderRightWidth (v : CssPropertyValue ℤ)
  | BorderLeftWidth (v : CssPropertyValue ℤ)
  | BorderBottomWidth (v : CssPropertyValue ℤ)
  | BoxShadowLeft (v : CssPropertyValue ℤ)
  | BoxShadowRight (v : CssPropertyValue ℤ)
  | BoxShadowTop (v : CssPropertyValue ℤ)
  | BoxShadowBottom (v : CssPropertyValue ℤ)

/-- `std::mem::discriminant` on `CssProperty`: the constructor tag,
ignoring the payload. -/
def CssProperty.discriminant : CssProperty → Nat
  | CssProperty.Display _ => 0
  | CssProperty.Float _ => 1
  | CssProperty.BoxSizing _ => 2
  | CssProperty.TextColor _ => 3
  | CssProperty.FontSize _ => 4
  | CssProperty.FontFamily _ => 5
  | CssProperty.TextAlign _ => 6
  | CssProperty.LetterSpacing _ => 7
  | CssProperty.LineHeight _ => 8
  | CssProperty.WordSpacing _ => 9
  | CssProperty.TabWidth _ => 10
  | CssProperty.Cursor _ => 11
  | CssProperty.Width _ => 12
  | CssProperty.Height _ => 13
  | CssProperty.MinWidth _ => 14
  | CssProperty.MinHeight _ => 15
  | CssProperty.MaxWidth _ => 16
  | CssProperty.MaxHeight _ => 17
  | CssProperty.Position _ => 18
  | CssProperty.Top _ => 19
  | CssProperty.Bottom _ => 20
  | CssProperty.Right _ => 21
  | CssProperty.Left _ => 22
  | CssProperty.FlexWrap _ => 23
  | CssProperty.FlexDirection _ => 24
  | CssProperty.FlexGrow _ => 25
  | CssProperty.FlexShrink _ => 26
  | CssProperty.JustifyContent _ => 27
  | CssProperty.AlignItems _ => 28
  | CssProperty.AlignContent _ => 29
  | CssProperty.BackgroundContent _ => 30
  | CssProperty.BackgroundPosition _ => 31
  | CssProperty.BackgroundSize _ => 32
  | CssProperty.BackgroundRepeat _ => 33
  | CssProperty.OverflowX _ => 34
  | CssProperty.OverflowY _ => 35
  | CssProperty.PaddingTop _ => 36
  | CssProperty.PaddingLeft _ => 37
  | CssProperty.PaddingRight _ => 38
  | CssProperty.PaddingBottom _ => 39
  | CssProperty.MarginTop _ => 40
  | CssProperty.MarginLeft _ => 41
  | CssProperty.MarginRight _ => 42
  | CssProperty.MarginBottom _ => 43
  | CssProperty.BorderTopLeftRadius _ => 44
  | CssProperty.BorderTopRightRadius _ => 45
  | CssProperty.BorderBottomLeftRadius _ => 46
  | CssProperty.BorderBottomRightRadius _ => 47
  | CssProperty.BorderTopColor _ => 48
  | CssProperty.BorderRightColor _ => 49
  | CssProperty.BorderLeftColor _ => 50
  | CssProperty.BorderBottomColor _ => 51
  | CssProperty.BorderTopStyle _ => 52
  | CssProperty.BorderRightStyle _ => 53
  | CssProperty.BorderLeftStyle _ => 54
  | CssProperty.BorderBottomStyle _ => 55
  | CssProperty.BorderTopWidth _ => 56
  | CssProperty.BorderRightWidth _ => 57
  | CssProperty.BorderLeftWidth _ => 58
  | CssProperty.BorderBottomWidth _ => 59
  | CssProperty.BoxShadowLeft _ => 60
  | CssProperty.BoxShadowRight _ => 61
  | CssProperty.BoxShadowTop _ => 62
  | CssProperty.BoxShadowBottom _ => 63

/-- `azul_css::RectStyle`: the paint attributes of a node, with the fields
written by `apply_style_property` (src/azul/display_list.rs lines
1095-1180). -/
structure RectStyle where
  text_color : Option (CssPropertyValue ℤ) := Option.none
  font_size : Option (CssPropertyValue ℤ) := Option.none
  font_family : Option (CssPropertyValue ℤ) := Option.none
  text_align : Option (CssPropertyValue ℤ) := Option.none
  letter_spacing : Option (CssPropertyValue ℤ) := Option.none
  line_height : Option (CssPropertyValue ℤ) := Option.none
  word_spacing : Option (CssPropertyValue ℤ) := Option.none
  tab_width : Option (CssPropertyValue ℤ) := Option.none
  cursor : Option (CssPropertyValue ℤ) := Option.none
  background : Option (CssPropertyValue ℤ) := Option.none
  background_position : Option (CssPropertyValue ℤ) := Option.none
  background_size : Option (CssPropertyValue ℤ) := Option.none
  background_repeat : Option (CssPropertyValue ℤ) := Option.none
  border_top_left_radius : Option (CssPropertyValue ℤ) := Option.none
  border_top_right_radius : Option (CssPropertyValue ℤ) := Option.none
  border_bottom_left_radius : Option (CssPropertyValue ℤ) := Option.none
  border_bottom_right_radius : Option (CssPropertyValue ℤ) := Option.none
  border_top_color : Option (CssPropertyValue ℤ) := Option.none
  border_right_color : Option (CssPropertyValue ℤ) := Option.none
  border_left_color : Option (CssPropertyValue ℤ) := Option.none
  border_bottom_color : Option (CssPropertyValue ℤ) := Option.none
  border_top_style : Option (CssPropertyValue ℤ) := Option.none
  border_right_style : Option (CssPropertyValue ℤ) := Option.none
  border_left_style : Option (CssPropertyValue ℤ) := Option.none
  border_bottom_style : Option (CssPropertyValue ℤ) := Option.none
  box_shadow_left : Option (CssPropertyValue ℤ) := Option.none
  box_shadow_right : Option (CssPropertyValue ℤ) := Option.none
  box_shadow_top : Option (CssPropertyValue ℤ) := Option.none
  box_shadow_bottom : Option (CssPropertyValue ℤ) := Option.none

/-- `azul_css::RectLayout`: the box-model attributes of a node, with the
fields written by `apply_style_property` and read by the display-list
builder. -/
structure RectLayout where
  display : Option (CssPropertyValue ℤ) := Option.none
  float : Option (CssPropertyValue ℤ) := Option.none
  box_sizing : Option (CssPropertyValue ℤ) := Option.none
  width : Option (CssPropertyValue ℤ) := Option.none
  height : Option (CssPropertyValue ℤ) := Option.none
  min_width : Option (CssPropertyValue ℤ) := Option.none
  min_height : Option (CssPropertyValue ℤ) := Option.none
  max_width : Option (CssPropertyValue ℤ) := Option.none
  max_height : Option (CssPropertyValue ℤ) := Option.none
  position : Option (CssPropertyValue LayoutPosition) := Option.none
  top : Option (CssPropertyValue ℤ) := Option.none
  bottom : Option (CssPropertyValue ℤ) := Option.none
  right : Option (CssPropertyValue ℤ) := Option.none
  left : Option (CssPropertyValue ℤ) := Option.none
  wrap : Option (CssPropertyValue ℤ) := Option.none
  direction : Option (CssPropertyValue ℤ) := Option.none
  flex_grow : Option (CssPropertyValue ℤ) := Option.none
  flex_shrink : Option (CssPropertyValue ℤ) := Option.none
  justify_content : Option (CssPropertyValue ℤ) := Option.none
  align_items : Option (CssPropertyValue ℤ) := Option.none
  align_content : Option (CssPropertyValue ℤ) := Option.none
  overflow_x : Option (CssPropertyValue Overflow) := Option.none
  overflow_y : Option (CssPropertyValue Overflow) := Option.none
  padding_top : Option (CssPropertyValue ℤ) := Option.none
  padding_left : Option (CssPropertyValue ℤ) := Option.none
  padding_right : Option (CssPropertyValue ℤ) := Option.none
  padding_bottom : Option (CssPropertyValue ℤ) := Option.none
  margin_top : Option (CssPropertyValue ℤ) := Option.none
  margin_left : Option (CssPropertyValue ℤ) := Option.none
  margin_right : Option (CssPropertyValue ℤ) := Option.none
  margin_bottom : Option (CssPropertyValue ℤ) := Option.none
  border_top_width : Option (CssPropertyValue ℤ) := Option.none
  border_right_width : Option (CssPropertyValue ℤ) := Option.none
  border_left_width : Option (CssPropertyValue ℤ) := Option.none
  border_bottom_width : Option (CssPropertyValue ℤ) := Option.none

/-- `apply_style_property` (src/azul/display_list.rs lines 1095-1180): one
match arm per property variant, each setting the corresponding field of
`RectStyle` or `RectLayout`. -/
def apply_style_property (style : RectStyle) (layout : RectLayout) :
    CssProperty → RectStyle × RectLayout
  | CssProperty.Display d => (style, { layout with display := some d })
  | CssProperty.Float f => (style, { layout with float := some f })
  | CssProperty.BoxSizing bs => (style, { layout with box_sizing := some bs })
  | CssProperty.TextColor c => ({ style with text_color := some c }, layout)
  | CssProperty.FontSize fs => ({ style with font_size := some fs }, layout)
  | CssProperty.FontFamily ff => ({ style with font_family := some ff }, layout)
  | CssProperty.TextAlign ta => ({ style with text_align := some ta }, layout)
  | CssProperty.LetterSpacing ls => ({ style with letter_spacing := some ls }, layout)
  | CssProperty.LineHeight lh => ({ style with line_height := some lh }, layout)
  | CssProperty.WordSpacing ws => ({ style with word_spacing := some ws }, layout)
  | CssProperty.TabWidth tw => ({ style with tab_width := some tw }, layout)
  | CssProperty.Cursor c => ({ style with cursor := some c }, layout)
  | CssProperty.Width w => (style, { layout with width := some w })
  | CssProperty.Height h => (style, { layout with height := some h })
  | CssProperty.MinWidth mw => (style, { layout with min_width := some mw })
  | CssProperty.MinHeight mh => (style, { layout with min_height := some mh })
  | CssProperty.MaxWidth mw => (style, { layout with max_width := some mw })
  | CssProperty.MaxHeight mh => (style, { layout with max_height := some mh })
  | CssProperty.Position p => (style, { layout with position := some p })
  | CssProperty.Top t => (style, { layout with top := some t })
  | CssProperty.Bottom b => (style, { layout with bottom := some b })
  | CssProperty.Right r => (style, { layout with right := some r })
  | CssProperty.Left l => (style, { layout with left := some l })
  | CssProperty.FlexWrap fw => (style, { layout with wrap := some fw })
  | CssProperty.FlexDirection fd => (style, { layout with direction := some fd })
  | CssProperty.FlexGrow fg => (style, { layout with flex_grow := some fg })
  | CssProperty.FlexShrink fs => (style, { layout with flex_shrink := some fs })
  | CssProperty.JustifyContent jc => (style, { layout with justify_content := some jc })
  | CssProperty.AlignItems ai => (style, { layout with align_items := some ai })
  | CssProperty.AlignContent ac => (style, { layout with align_content := some ac })
  | CssProperty.BackgroundContent bc => ({ style with background := some bc }, layout)
  | CssProperty.BackgroundPosition bp => ({ style with background_position := some bp }, layout)
  | CssProperty.BackgroundSize bs => ({ style with background_size := some bs }, layout)
  | CssProperty.BackgroundRepeat br => ({ style with background_repeat := some br }, layout)
  | CssProperty.OverflowX ox => (style, { layout with overflow_x := some ox })
  | CssProperty.OverflowY oy => (style, { layout with overflow_y := some oy })
  | CssProperty.PaddingTop pt => (style, { layout with padding_top := some pt })
  | CssProperty.PaddingLeft pl => (style, { layout with padding_left := some pl })
  | CssProperty.PaddingRight pr => (style, { layout with padding_right := some pr })
  | CssProperty.PaddingBottom pb => (style, { layout with padding_bottom := some pb })
  | CssProperty.MarginTop mt => (style, { layout with margin_top := some mt })
  | CssProperty.MarginLeft ml => (style, { layout with margin_left := some ml })
  | CssProperty.MarginRight mr => (style, { layout with margin_right := some mr })
  | CssProperty.MarginBottom mb => (style, { layout with margin_bottom := some mb })
  | CssProperty.BorderTopLeftRadius btl => ({ style with border_top_left_radius := some btl }, layout)
  | CssProperty.BorderTopRightRadius btr => ({ style with border_top_right_radius := some btr }, layout)
  | CssProperty.BorderBottomLeftRadius bbl => ({ style with border_bottom_left_radius := some bbl }, layout)
  | CssProperty.BorderBottomRightRadius bbr => ({ style with border_bottom_right_radius := some bbr }, layout)
  | CssProperty.BorderTopColor btc => ({ style with border_top_color := some btc }, layout)
  | CssProperty.BorderRightColor brc => ({ style with border_right_color := some brc }, layout)
  | CssProperty.BorderLeftColor blc => ({ style with border_left_color := some blc }, layout)
  | CssProperty.BorderBottomColor bbc => ({ style with border_bottom_color := some bbc }, layout)
  | CssProperty.BorderTopStyle bts => ({ style with border_top_style := some bts }, layout)
  | CssProperty.BorderRightStyle brs => ({ style with border_right_style := some brs }, layout)
  | CssProperty.BorderLeftStyle bls => ({ style with border_left_style := some bls }, layout)
  | CssProperty.BorderBottomStyle bbs => ({ style with border_bottom_style := some bbs }, layout)
  | CssProperty.BorderTopWidth btw => (style, { layout with border_top_width := some btw })
  | CssProperty.BorderRightWidth brw => (style, { layout with border_right_width := some brw })
  | CssProperty.BorderLeftWidth blw => (style, { layout with border_left_width := some blw })
  | CssProperty.BorderBottomWidth bbw => (style, { layout with border_bottom_width := some bbw })
  | CssProperty.BoxShadowLeft bsl => ({ style with box_shadow_left := some bsl }, layout)
  | CssProperty.BoxShadowRight bsr => ({ style with box_shadow_right := some bsr }, layout)
  | CssProperty.BoxShadowTop bst => ({ style with box_shadow_top := some bst }, layout)
  | CssProperty.BoxShadowBottom bsb => ({ style with box_shadow_bottom := some bsb }, layout)


/-- `azul_css::DynamicCssProperty`; modelled from its use in
`populate_css_properties` (src/azul/display_list.rs lines 1077-1090): a
dynamic override slot with an id and a declared default value. -/
structure DynamicCssProperty where
  dynamic_id : String
  default_value : CssProperty

/-- `azul_css::CssDeclaration`; modelled from its use in
`populate_css_properties`: a static property or a dynamic override slot. -/
inductive CssDeclaration where
  | Static (p : CssProperty)
  | Dynamic (d : DynamicCssProperty)

/-- `azul::ui_description::StyledNode` (not in `src/`); modelled from its use
in `populate_css_properties`: the cascaded constraints of one node, a
`BTreeMap<String, CssDeclaration>` iterated over its values.  The map is
modelled as its entry list in iteration order. -/
structure StyledNode where
  css_constraints : List (String × CssDeclaration)

/-- `DisplayRectangle` (src/azul/display_list.rs lines 79-88): hit-test tag
plus parsed style/layout properties, together with the styled node whose
`css_constraints` the populate step reads (src line 1068). -/
structure DisplayRectangle where
  tag : Option Nat
  styled_node : StyledNode
  style : RectStyle
  layout : RectLayout

/-- `OverrideWarning` (src/azul/display_list.rs lines 1050-1054). -/
structure OverrideWarning where
  default : CssProperty
  overridden_property : CssProperty

/-- The loop body of `populate_css_properties` (src/azul/display_list.rs
lines 1070-1092): fold over the constraint values; `Static` applies the
property; `Dynamic` looks up the override for this node and id, applies it
when the `mem::discriminant`s match, and emits an `OverrideWarning`
otherwise; a missing override applies nothing. -/
def apply_css_constraints (node_id : NodeId)
    (css_overrides : HMap NodeId (HMap String CssProperty)) :
    List (String × CssDeclaration) → RectStyle → RectLayout →
      (RectStyle × RectLayout) × List OverrideWarning
  | [], rect_style, rect_layout => ((rect_style, rect_layout), [])
  | (_, constraint) :: rest, rect_style, rect_layout =>
    match constraint with
    | CssDeclaration.Static static_property =>
      let sl := apply_style_property rect_style rect_layout static_property
      apply_css_constraints node_id css_overrides rest sl.1 sl.2
    | CssDeclaration.Dynamic dynamic_property =>
      match (css_overrides.get? node_id).bind
          (fun overrides => overrides.get? dynamic_property.dynamic_id) with
      | Option.none => apply_css_constraints node_id css_overrides rest rect_style rect_layout
      | some overridden_property =>
        if CssProperty.discriminant overridden_property =
            CssProperty.discriminant dynamic_property.default_value then
          let sl := apply_style_property rect_style rect_layout overridden_property
          apply_css_constraints node_id css_overrides rest sl.1 sl.2
        else
          let r := apply_css_constraints node_id css_overrides rest rect_style rect_layout
          (r.1, OverrideWarning.mk dynamic_property.default_value overridden_property :: r.2)

/-- `populate_css_properties` (src/azul/display_list.rs lines 1057-1093):
apply the node's static and dynamic constraints to its style/layout and
collect the override warnings. -/
def populate_css_properties (rect : DisplayRectangle) (node_id : NodeId)
    (css_overrides : HMap NodeId (HMap String CssProperty)) :
    DisplayRectangle × List OverrideWarning :=
  let r := apply_css_constraints node_id css_overrides
    rect.styled_node.css_constraints rect.style rect.layout
  ({ rect with style := r.1.1, layout := r.1.2 }, r.2)

/-- The overrides map with the single entry `(node_id, k)` removed: the
"without that override" world of the claim. -/
def removeOverride (css_overrides : HMap NodeId (HMap String CssProperty))
    (node_id : NodeId) (k : String) : HMap NodeId (HMap String CssProperty) :=
  css_overrides.insert node_id (((css_overrides.get? node_id).getD HMap.empty).remove k)

/-- The dynamic override slots for id `k` among a node's constraints. -/
def dynamicConstraintsFor (k : String) (cs : List (String × CssDeclaration)) :
    List DynamicCssProperty :=
  cs.filterMap (fun sc => match sc.2 with
    | CssDeclaration.Dynamic d => if d.dynamic_id = k then some d else Option.none
    | _ => Option.none)

theorem removeOverride_lookup_self (css_overrides : HMap NodeId (HMap String CssProperty))
    (node_id : NodeId) (k : String) :
    ((removeOverride css_overrides node_id k).get? node_id).bind
      (fun overrides => overrides.get? k) = Option.none := by
  simp only [removeOverride, HMap.get?_insert_self, Option.some_bind]
  exact HMap.get?_remove_self _ k

theorem removeOverride_lookup_same_node_ne (css_overrides : HMap NodeId (HMap String CssProperty))
    (node_id : NodeId) (k k' : String) (hk : k' ≠ k) :
    ((removeOverride css_overrides node_id k).get? node_id).bind
      (fun overrides => overrides.get? k') =
    (css_overrides.get? node_id).bind (fun overrides => overrides.get? k') := by
  simp only [removeOverride, HMap.get?_insert_self, Option.some_bind]
  rw [HMap.get?_remove_ne _ hk]
  cases h : css_overrides.get? node_id with
  | none => simp [HMap.get?, HMap.empty]
  | some m => simp

theorem dynamicConstraintsFor_cons_static (k : String) (key : String) (p : CssProperty)
    (rest : List (String × CssDeclaration)) :
    dynamicConstraintsFor k ((key, CssDeclaration.Static p) :: rest) =
      dynamicConstraintsFor k rest := by
  simp [dynamicConstraintsFor, List.filterMap_cons]

theorem dynamicConstraintsFor_cons_dyn_ne (k : String) (key : String)
    (d : DynamicCssProperty) (rest : List (String × CssDeclaration))
    (hid : ¬ d.dynamic_id = k) :
    dynamicConstraintsFor k ((key, CssDeclaration.Dynamic d) :: rest) =
      dynamicConstraintsFor k rest := by
  simp [dynamicConstraintsFor, List.filterMap_cons, hid]

theorem dynamicConstraintsFor_cons_dyn_eq (k : String) (key : String)
    (d : DynamicCssProperty) (rest : List (String × CssDeclaration))
    (hid : d.dynamic_id = k) :
    dynamicConstraintsFor k ((key, CssDeclaration.Dynamic d) :: rest) =
      d :: dynamicConstraintsFor k rest := by
  simp [dynamicConstraintsFor, List.filterMap_cons, hid]

theorem apply_css_constraints_removeOverride_of_no_k (node_id : NodeId)
    (css_overrides : HMap NodeId (HMap String CssProperty)) (k : String)
    (cs : List (String × CssDeclaration))
    (hno : dynamicConstraintsFor k cs = []) (s : RectStyle) (l : RectLayout) :
    apply_css_constraints node_id (removeOverride css_overrides node_id k) cs s l =
      apply_css_constraints node_id css_overrides cs s l := by
  induction cs generalizing s l with
  | nil => rfl
  | cons hd rest ih =>
    obtain ⟨key, constraint⟩ := hd
    cases constraint with
    | Static p =>
      rw [dynamicConstraintsFor_cons_static] at hno
      simp only [apply_css_constraints]
      exact ih hno _ _
    | Dynamic d =>
      by_cases hid : d.dynamic_id = k
      · rw [dynamicConstraintsFor_cons_dyn_eq _ _ _ _ hid] at hno
        exact absurd hno (List.cons_ne_nil _ _)
      · rw [dynamicConstraintsFor_cons_dyn_ne _ _ _ _ hid] at hno
        simp only [apply_css_constraints]
        rw [removeOverride_lookup_same_node_ne _ _ _ _ hid]
        cases hov : (css_overrides.get? node_id).bind
            (fun overrides => overrides.get? d.dynamic_id) with
        | none => exact ih hno _ _
        | some o =>
          by_cases hdisc : CssProperty.discriminant o =
              CssProperty.discriminant d.default_value
          · simp only [if_pos hdisc]
            exact ih hno _ _
          · simp only [if_neg hdisc]
            rw [ih hno]

theorem apply_css_constraints_mismatch (node_id : NodeId)
    (css_overrides : HMap NodeId (HMap String CssProperty)) (k : String)
    (o : CssProperty) (d0 : DynamicCssProperty)
    (hov : (css_overrides.get? node_id).bind (fun m => m.get? k) = some o)
    (hmis : CssProperty.discriminant o ≠ CssProperty.discriminant d0.default_value)
    (cs : List (String × CssDeclaration))
    (huniq : dynamicConstraintsFor k cs = [d0]) (s : RectStyle) (l : RectLayout) :
    (apply_css_constraints node_id css_overrides cs s l).1 =
      (apply_css_constraints node_id (removeOverride css_overrides node_id k) cs s l).1 ∧
    List.Perm (apply_css_constraints node_id css_overrides cs s l).2
      (OverrideWarning.mk d0.default_value o ::
        (apply_css_constraints node_id (removeOverride css_overrides node_id k) cs s l).2) := by
  induction cs generalizing s l with
  | nil => simp [dynamicConstraintsFor] at huniq
  | cons hd rest ih =>
    obtain ⟨key, constraint⟩ := hd
    cases constraint with
    | Static p =>
      rw [dynamicConstraintsFor_cons_static] at huniq
      simp only [apply_css_constraints]
      exact ih huniq _ _
    | Dynamic d =>
      by_cases hid : d.dynamic_id = k
      · rw [dynamicConstraintsFor_cons_dyn_eq _ _ _ _ hid] at huniq
        injection huniq with hd0 hrest
        subst hd0
        simp only [apply_css_constraints, hid, hov]
        rw [removeOverride_lookup_self]
        rw [if_neg hmis]
        rw [apply_css_constraints_removeOverride_of_no_k _ _ _ _ hrest]
        exact ⟨rfl, List.Perm.refl _⟩
      · rw [dynamicConstraintsFor_cons_dyn_ne _ _ _ _ hid] at huniq
        simp only [apply_css_constraints]
        rw [removeOverride_lookup_same_node_ne _ _ _ _ hid]
        cases hlook : (css_overrides.get? node_id).bind
            (fun overrides => overrides.get? d.dynamic_id) with
        | none => exact ih huniq _ _
        | some o2 =>
          by_cases hdisc : CssProperty.discriminant o2 =
              CssProperty.discriminant d.default_value
          · simp only [if_pos hdisc]
            exact ih huniq _ _
          · simp only [if_neg hdisc]
            refine ⟨(ih huniq s l).1, ?_⟩
            exact List.Perm.trans (List.Perm.cons _ (ih huniq s l).2)
              (List.Perm.swap _ _ _)

/-- C5: a dynamic style override whose replacement value has a different
underlying type (enum discriminant) than the property's declared default
never changes the populated style and layout (the result equals the run with
that override absent), and produces exactly one `OverrideWarning` for the
mismatched node/property pair (the warning list is a permutation of the
override-free run's list with that one warning added).  The populate step is
a total function — no error value or abort exists on this path. -/
theorem populate_css_properties_mismatched_override (rect : DisplayRectangle)
    (node_id : NodeId) (css_overrides : HMap NodeId (HMap String CssProperty))
    (k : String) (o : CssProperty) (d0 : DynamicCssProperty)
    (hov : (css_overrides.get? node_id).bind (fun m => m.get? k) = some o)
    (huniq : dynamicConstraintsFor k rect.styled_node.css_constraints = [d0])
    (hmis : CssProperty.discriminant o ≠ CssProperty.discriminant d0.default_value) :
    (populate_css_properties rect node_id css_overrides).1 =
      (populate_css_properties rect node_id (removeOverride css_overrides node_id k)).1 ∧
    List.Perm (populate_css_properties rect node_id css_overrides).2
      (OverrideWarning.mk d0.default_value o ::
        (populate_css_properties rect node_id (removeOverride css_overrides node_id k)).2) := by
  have h := apply_css_constraints_mismatch node_id css_overrides k o d0 hov hmis
    rect.styled_node.css_constraints huniq rect.style rect.layout
  refine ⟨?_, h.2⟩
  simp only [populate_css_properties]
  rw [h.1]

/-- C5 witness: one dynamic constraint with default `Width`, overridden by a
`Height` value: the populated rectangle is unchanged and exactly the one
warning is emitted. -/
theorem populate_css_properties_mismatched_override_witness :
    (populate_css_properties
        ⟨Option.none,
         ⟨[("width", CssDeclaration.Dynamic ⟨"w", CssProperty.Width (CssPropertyValue.exact 10)⟩)]⟩,
         {}, {}⟩ 0
        (HMap.mk [(0, HMap.mk [("w", CssProperty.Height (CssPropertyValue.exact 5))])])).1 =
      (populate_css_properties
        ⟨Option.none,
         ⟨[("width", CssDeclaration.Dynamic ⟨"w", CssProperty.Width (CssPropertyValue.exact 10)⟩)]⟩,
         {}, {}⟩ 0
        (removeOverride
          (HMap.mk [(0, HMap.mk [("w", CssProperty.Height (CssPropertyValue.exact 5))])]) 0 "w")).1 ∧
    List.Perm (populate_css_properties
        ⟨Option.none,
         ⟨[("width", CssDeclaration.Dynamic ⟨"w", CssProperty.Width (CssPropertyValue.exact 10)⟩)]⟩,
         {}, {}⟩ 0
        (HMap.mk [(0, HMap.mk [("w", CssProperty.Height (CssPropertyValue.exact 5))])])).2
      (OverrideWarning.mk (CssProperty.Width (CssPropertyValue.exact 10))
          (CssProperty.Height (CssPropertyValue.exact 5)) ::
        (populate_css_properties
          ⟨Option.none,
           ⟨[("width", CssDeclaration.Dynamic ⟨"w", CssProperty.Width (CssPropertyValue.exact 10)⟩)]⟩,
           {}, {}⟩ 0
          (removeOverride
            (HMap.mk [(0, HMap.mk [("w", CssProperty.Height (CssPropertyValue.exact 5))])]) 0 "w")).2) :=
  populate_css_properties_mismatched_override _ 0 _ "w"
    (CssProperty.Height (CssPropertyValue.exact 5))
    ⟨"w", CssProperty.Width (CssPropertyValue.exact 10)⟩
    rfl rfl (by decide)


/-! ## Rendering-order resolver (src/azul/display_list.rs lines 596-645) -/

/-- Modelled from the spec: the arena node tree (`azul::id_tree`, not in
`src/`), reduced to what the resolver reads — for each node the ordered list
of its direct children (`parent.children(node_hierarchy)`). -/
structure NodeHierarchy where
  children : NodeId → List NodeId

/-- The resolved position mode of a node:
`rectangles[*id].layout.position.and_then(|p| p.get_property_or_default())
.unwrap_or_default()` (src/azul/display_list.rs lines 634 and 639). -/
def resolved_position (rect : DisplayRectangle) : LayoutPosition :=
  (rect.layout.position.bind CssPropertyValue.get_property_or_default).getD default

/-- `sort_children_by_position` (src/azul/display_list.rs lines 625-645):
filter the parent's children into non-absolute and absolute, preserving
order, and append the absolute ones after the regular ones. -/
def sort_children_by_position (parent : NodeId) (node_hierarchy : NodeHierarchy)
    (rectangles : NodeId → DisplayRectangle) : List NodeId :=
  let not_absolute_children := (node_hierarchy.children parent).filter
    (fun id => decide (resolved_position (rectangles id) ≠ LayoutPosition.absolute))
  let absolute_children := (node_hierarchy.children parent).filter
    (fun id => decide (resolved_position (rectangles id) = LayoutPosition.absolute))
  not_absolute_children ++ absolute_children

/-- `ContentGroup` (src/azul/display_list.rs lines 259-266). -/
inductive ContentGroup where
  | mk (root : NodeId) (children : List ContentGroup)

/-- The `children_sorted` map of `determine_rendering_order`
(src/azul/display_list.rs lines 601-605): every parent maps to its sorted
children; `parents` is `get_parents_sorted_by_depth()`. -/
def determine_rendering_order_children_sorted (parents : List NodeId)
    (node_hierarchy : NodeHierarchy) (rectangles : NodeId → DisplayRectangle) :
    HMap NodeId (List NodeId) :=
  parents.foldl
    (fun m parent_id =>
      m.insert parent_id (sort_children_by_position parent_id node_hierarchy rectangles))
    HMap.empty

/-- `fill_content_group_children` (src/azul/display_list.rs lines 612-623),
with explicit recursion fuel (the source recursion terminates because the
arena is a tree; any fuel at least the tree depth reproduces it). -/
def fill_content_group_children (children_sorted : HMap NodeId (List NodeId)) :
    Nat → NodeId → ContentGroup
  | 0, root => ContentGroup.mk root []
  | fuel + 1, root =>
    match children_sorted.get? root with
    | Option.none => ContentGroup.mk root []
    | some c => ContentGroup.mk root (c.map (fill_content_group_children children_sorted fuel))

/-- `determine_rendering_order` (src/azul/display_list.rs lines 596-610):
build the sorted-children map and fill the content group tree from the root
node 0. -/
def determine_rendering_order (parents : List NodeId) (node_hierarchy : NodeHierarchy)
    (rectangles : NodeId → DisplayRectangle) (fuel : Nat) : ContentGroup :=
  fill_content_group_children
    (determine_rendering_order_children_sorted parents node_hierarchy rectangles) fuel 0

theorem foldl_insert_get?_of_not_mem {β : Type} (f : NodeId → β) (l : List NodeId)
    (m : HMap NodeId β) (p : NodeId) (hp : p ∉ l) :
    (l.foldl (fun m q => m.insert q (f q)) m).get? p = m.get? p := by
  induction l generalizing m with
  | nil => rfl
  | cons q rest ih =>
    have hq : p ≠ q := fun h => hp (h ▸ List.mem_cons_self q rest)
    have hrest : p ∉ rest := fun h => hp (List.mem_cons_of_mem q h)
    simp only [List.foldl_cons]
    rw [ih _ hrest, HMap.get?_insert_ne _ _ hq]

theorem foldl_insert_get?_of_mem {β : Type} (f : NodeId → β) (l : List NodeId)
    (m : HMap NodeId β) (p : NodeId) (hp : p ∈ l) :
    (l.foldl (fun m q => m.insert q (f q)) m).get? p = some (f p) := by
  induction l generalizing m with
  | nil => cases hp
  | cons q rest ih =>
    simp only [List.foldl_cons]
    by_cases hrest : p ∈ rest
    · exact ih _ hrest
    · have hq : p = q := by
        cases List.mem_cons.mp hp with
        | inl h => exact h
        | inr h => exact absurd h hrest
      subst hq
      rw [foldl_insert_get?_of_not_mem _ _ _ _ hrest, HMap.get?_insert_self]

theorem partition_index_order {α : Type} (A B : List α) (pr : α → Bool) (d : α)
    (hA : ∀ a ∈ A, pr a = false) (hB : ∀ b ∈ B, pr b = true)
    (i j : Nat) (hi : i < (A ++ B).length) (hj : j < (A ++ B).length)
    (hiabs : pr ((A ++ B).getD i d) = true) (hjreg : pr ((A ++ B).getD j d) = false) :
    j < i := by
  have hilen : A.length ≤ i := by
    by_contra hlt
    push_neg at hlt
    rw [List.getD_eq_getElem _ _ hi, List.getElem_append_left hlt] at hiabs
    exact absurd (hA _ (List.getElem_mem _)) (by rw [hiabs]; simp)
  have hjlen : j < A.length := by
    by_contra hge
    push_neg at hge
    rw [List.getD_eq_getElem _ _ hj, List.getElem_append_right hge] at hjreg
    exact absurd (hB _ (List.getElem_mem _)) (by rw [hjreg]; simp)
  omega

/-- C4: for every node hierarchy, rectangle table and parent appearing in
the parents list, the rendering-order resolver's sorted-children map assigns
that parent exactly `sort_children_by_position`, whose output is a
permutation of the parent's direct children in which every
absolutely-positioned child comes after every non-absolute child, and the
relative order inside each of the two groups equals the input order (the
filtered subsequences coincide). -/
theorem rendering_order_partitions_children (parents : List NodeId)
    (node_hierarchy : NodeHierarchy) (rectangles : NodeId → DisplayRectangle)
    (parent : NodeId) (hmem : parent ∈ parents) :
    ((determine_rendering_order_children_sorted parents node_hierarchy rectangles).get?
        parent = some (sort_children_by_position parent node_hierarchy rectangles)) ∧
    List.Perm (sort_children_by_position parent node_hierarchy rectangles)
      (node_hierarchy.children parent) ∧
    (∀ i j : Nat, i < (sort_children_by_position parent node_hierarchy rectangles).length →
      j < (sort_children_by_position parent node_hierarchy rectangles).length →
      resolved_position (rectangles
        ((sort_children_by_position parent node_hierarchy rectangles).getD i 0)) =
        LayoutPosition.absolute →
      resolved_position (rectangles
        ((sort_children_by_position parent node_hierarchy rectangles).getD j 0)) ≠
        LayoutPosition.absolute →
      j < i) ∧
    (sort_children_by_position parent node_hierarchy rectangles).filter
        (fun id => decide (resolved_position (rectangles id) ≠ LayoutPosition.absolute)) =
      (node_hierarchy.children parent).filter
        (fun id => decide (resolved_position (rectangles id) ≠ LayoutPosition.absolute)) ∧
    (sort_children_by_position parent node_hierarchy rectangles).filter
        (fun id => decide (resolved_position (rectangles id) = LayoutPosition.absolute)) =
      (node_hierarchy.children parent).filter
        (fun id => decide (resolved_position (rectangles id) = LayoutPosition.absolute)) := by
  set pEq : NodeId → Bool :=
    fun id => decide (resolved_position (rectangles id) = LayoutPosition.absolute) with hpEq
  set pNe : NodeId → Bool :=
    fun id => decide (resolved_position (rectangles id) ≠ LayoutPosition.absolute) with hpNe
  have hnot : ∀ id, pNe id = !pEq id := by
    intro id
    simp [hpEq, hpNe]
  have hsort : sort_children_by_position parent node_hierarchy rectangles =
      (node_hierarchy.children parent).filter pNe ++
        (node_hierarchy.children parent).filter pEq := rfl
  refine ⟨?_, ?_, ?_, ?_, ?_⟩
  · exact foldl_insert_get?_of_mem _ _ _ _ hmem
  · rw [hsort]
    have h1 : (node_hierarchy.children parent).filter pNe =
        (node_hierarchy.children parent).filter (fun id => !pEq id) :=
      List.filter_congr (fun id _ => hnot id)
    rw [h1]
    have := List.filter_append_perm pEq (node_hierarchy.children parent)
    exact List.Perm.trans (List.perm_append_comm.trans this) (List.Perm.refl _)
  · intro i j hi hj hiabs hjreg
    rw [hsort] at hi hj hiabs hjreg
    refine partition_index_order _ _ pEq 0 ?_ ?_ i j hi hj ?_ ?_
    · intro a ha
      have := List.of_mem_filter ha
      simp only [hpNe, decide_eq_true_eq] at this
      simp [hpEq, this]
    · intro b hb
      have := List.of_mem_filter hb
      exact this
    · simp only [hpEq, decide_eq_true_eq]
      exact hiabs
    · simp only [hpEq]
      simp only [decide_eq_false_iff_not]
      exact hjreg
  · rw [hsort, List.filter_append]
    have h1 : ((node_hierarchy.children parent).filter pNe).filter pNe =
        (node_hierarchy.children parent).filter pNe := by
      rw [List.filter_eq_self]
      intro a ha
      exact List.of_mem_filter ha
    have h2 : ((node_hierarchy.children parent).filter pEq).filter pNe = [] := by
      rw [List.filter_eq_nil_iff]
      intro a ha
      have := List.of_mem_filter ha
      simp only [hpEq, decide_eq_true_eq] at this
      simp [hpNe, this]
    rw [h1, h2, List.append_nil]
  · rw [hsort, List.filter_append]
    have h1 : ((node_hierarchy.children parent).filter pNe).filter pEq = [] := by
      rw [List.filter_eq_nil_iff]
      intro a ha
      have := List.of_mem_filter ha
      simp only [hpNe, decide_eq_true_eq] at this
      simp [hpEq, this]
    have h2 : ((node_hierarchy.children parent).filter pEq).filter pEq =
        (node_hierarchy.children parent).filter pEq := by
      rw [List.filter_eq_self]
      intro a ha
      exact List.of_mem_filter ha
    rw [h1, h2, List.nil_append]

/-- C4 witness: a parent (node 0) with children `[1, 2, 3]` where node 2 is
absolutely positioned: the resolver's map entry for node 0 is the sorted
list, and that list is a permutation of the children. -/
theorem rendering_order_partitions_children_witness :
    (let node_hierarchy : NodeHierarchy := ⟨fun n => if n = 0 then [1, 2, 3] else []⟩
     let rectangles : NodeId → DisplayRectangle := fun n =>
       if n = 2 then
         ⟨Option.none, ⟨[]⟩, {},
          { position := some (CssPropertyValue.exact LayoutPosition.absolute) }⟩
       else ⟨Option.none, ⟨[]⟩, {}, {}⟩
     ((determine_rendering_order_children_sorted [0] node_hierarchy rectangles).get? 0 =
        some (sort_children_by_position 0 node_hierarchy rectangles)) ∧
     List.Perm (sort_children_by_position 0 node_hierarchy rectangles)
       (node_hierarchy.children 0)) := by
  intro node_hierarchy rectangles
  exact ⟨(rendering_order_partitions_children [0] node_hierarchy rectangles 0 (by decide)).1,
         (rendering_order_partitions_children [0] node_hierarchy rectangles 0 (by decide)).2.1⟩

/-! ## Text clipping and padding (src/azul/display_list.rs lines 735-737,
991-1048) -/

/-- Modelled from the spec and the src test `test_overflow_parsing`:
`Overflow::is_overflow_visible` (`azul-css`, not in `src/`). -/
def Overflow.is_overflow_visible : Overflow → Bool
  | Overflow.visible => true
  | _ => false

/-- Modelled from the spec ("horizontal overflow-visibility flag") and pinned
by the src test `test_overflow_parsing` (src/azul/display_list.rs lines
1182-1205): `RectLayout::is_horizontal_overflow_visible` (`azul-css`, not in
`src/`) — the resolved `overflow-x` value, defaulting to `auto`, is
`visible`. -/
def RectLayout.is_horizontal_overflow_visible (layout : RectLayout) : Bool :=
  ((layout.overflow_x.bind CssPropertyValue.get_property_or_default).getD
    default).is_overflow_visible

/-- Modelled from the spec ("vertical overflow-visibility flag"), as
`is_horizontal_overflow_visible` but for `overflow-y`. -/
def RectLayout.is_vertical_overflow_visible (layout : RectLayout) : Bool :=
  ((layout.overflow_y.bind CssPropertyValue.get_property_or_default).getD
    default).is_overflow_visible

/-- `node_needs_to_clip_children` (src/azul/display_list.rs lines 735-737). -/
def node_needs_to_clip_children (layout : RectLayout) : Bool :=
  !(layout.is_horizontal_overflow_visible || layout.is_vertical_overflow_visible)

/-- First assertion of the src test `test_overflow_parsing`: the default
layout (overflow: auto) clips children. -/
theorem test_overflow_parsing_default : node_needs_to_clip_children {} = true := rfl

/-- Second assertion of the src test `test_overflow_parsing`: overflow
visible on both axes does not clip. -/
theorem test_overflow_parsing_visible :
    node_needs_to_clip_children
      { overflow_x := some (CssPropertyValue.exact Overflow.visible),
        overflow_y := some (CssPropertyValue.exact Overflow.visible) } = false := rfl

/-- Third assertion of the src test `test_overflow_parsing`: overflow hidden
on both axes clips. -/
theorem test_overflow_parsing_hidden :
    node_needs_to_clip_children
      { overflow_x := some (CssPropertyValue.exact Overflow.hidden),
        overflow_y := some (CssPropertyValue.exact Overflow.hidden) } = true := rfl

/-- `azul::text_layout::LayoutedGlyphs` (not in `src/`): the
previously-computed glyph runs, opaque to the claims. -/
structure LayoutedGlyphs where
  glyphs : List Nat

/-- The `LayoutRectContent::Text { .. }` payload
(`azul-core::display_list`, not in `src/`): glyph runs, font instance key,
color, optional glyph options and the optional clip rectangle. -/
structure LayoutRectContentText where
  glyphs : List Nat
  font_instance_key : Nat
  color : Nat
  glyph_options : Option Nat
  clip : Option LayoutRect

/-- `subtract_padding` (src/azul/display_list.rs lines 1038-1048): shift the
origin right/down by the left/top padding and shrink the size by the summed
paddings.  The source itself warns: "the resulting rectangle may have
negative width or height". -/
def subtract_padding (bounds : LayoutRect) (padding : ResolvedOffsets) : LayoutRect :=
  { origin := { x := bounds.origin.x + padding.left, y := bounds.origin.y + padding.top },
    size := { width := bounds.size.width - (padding.right + padding.left),
              height := bounds.size.height - (padding.top + padding.bottom) } }

/-- `get_text` (src/azul/display_list.rs lines 991-1033).  Note line 1002 of
the source: `overflow_vertical_visible` is assigned
`rect_layout.is_horizontal_overflow_visible()`, which this embedding
reproduces verbatim. -/
def get_text (bounds : LayoutRect) (padding : ResolvedOffsets)
    (root_window_size : LayoutSize) (layouted_glyphs : LayoutedGlyphs)
    (font_instance_key : Nat) (font_color : Nat) (rect_layout : RectLayout) :
    LayoutRectContentText :=
  let overflow_horizontal_visible := rect_layout.is_horizontal_overflow_visible
  let overflow_vertical_visible := rect_layout.is_horizontal_overflow_visible
  let padding_clip_bounds := subtract_padding bounds padding
  let text_clip_rect : Option LayoutRect :=
    match overflow_horizontal_visible, overflow_vertical_visible with
    | true, true => Option.none
    | false, false => some padding_clip_bounds
    | true, false =>
      some { origin := bounds.origin,
             size := { width := root_window_size.width,
                       height := padding_clip_bounds.size.height } }
    | false, true =>
      some { origin := bounds.origin,
             size := { width := padding_clip_bounds.size.width,
                       height := root_window_size.height } }
  { glyphs := layouted_glyphs.glyphs, font_instance_key := font_instance_key,
    color := font_color, glyph_options := Option.none, clip := text_clip_rect }

/-- C2 (code bug): a text node with `overflow-x: visible; overflow-y:
hidden` should get a clip rectangle of full window width and padding-reduced
height, but because line 1002 computes the vertical flag from
`is_horizontal_overflow_visible()`, both flags read `true` and the emitted
content item has no clip rectangle at all. -/
theorem get_text_overflow_x_visible_y_hidden_no_clip :
    (get_text ⟨⟨10, 20⟩, ⟨100, 50⟩⟩ ⟨5, 5, 5, 5⟩ ⟨800, 600⟩ ⟨[]⟩ 0 0
      { overflow_x := some (CssPropertyValue.exact Overflow.visible),
        overflow_y := some (CssPropertyValue.exact Overflow.hidden) }).clip =
      Option.none := rfl

/-- C10: `subtract_padding` returns exactly the origin-shifted,
size-reduced rectangle with no clamping at zero, and when the horizontal
padding sum exceeds the bounds' width on a text node whose horizontal
overflow is not visible, the clip rectangle attached to the emitted text
content item has negative width. -/
theorem subtract_padding_no_clamp (bounds : LayoutRect) (padding : ResolvedOffsets)
    (root_window_size : LayoutSize) (layouted_glyphs : LayoutedGlyphs)
    (font_instance_key : Nat) (font_color : Nat) (rect_layout : RectLayout)
    (hvis : rect_layout.is_horizontal_overflow_visible = false)
    (hover : bounds.size.width < padding.left + padding.right) :
    subtract_padding bounds padding =
      { origin := { x := bounds.origin.x + padding.left,
                    y := bounds.origin.y + padding.top },
        size := { width := bounds.size.width - (padding.right + padding.left),
                  height := bounds.size.height - (padding.top + padding.bottom) } } ∧
    (get_text bounds padding root_window_size layouted_glyphs font_instance_key
        font_color rect_layout).clip = some (subtract_padding bounds padding) ∧
    (subtract_padding bounds padding).size.width < 0 := by
  refine ⟨rfl, ?_, ?_⟩
  · simp only [get_text, hvis]
  · simp only [subtract_padding]
    linarith

/-- C10 witness: a 10-wide box with 6+6 horizontal padding yields a clip
rectangle of width −2 on its text content item. -/
theorem subtract_padding_no_clamp_witness :
    subtract_padding ⟨⟨0, 0⟩, ⟨10, 10⟩⟩ ⟨2, 6, 6, 2⟩ =
      { origin := { x := (0 : ℚ) + 6, y := (0 : ℚ) + 2 },
        size := { width := (10 : ℚ) - (6 + 6), height := (10 : ℚ) - (2 + 2) } } ∧
    (get_text ⟨⟨0, 0⟩, ⟨10, 10⟩⟩ ⟨2, 6, 6, 2⟩ ⟨800, 600⟩ ⟨[]⟩ 0 0 {}).clip =
      some (subtract_padding ⟨⟨0, 0⟩, ⟨10, 10⟩⟩ ⟨2, 6, 6, 2⟩) ∧
    (subtract_padding ⟨⟨0, 0⟩, ⟨10, 10⟩⟩ ⟨2, 6, 6, 2⟩).size.width < 0 :=
  subtract_padding_no_clamp ⟨⟨0, 0⟩, ⟨10, 10⟩⟩ ⟨2, 6, 6, 2⟩ ⟨800, 600⟩ ⟨[]⟩ 0 0 {}
    rfl (by norm_num)


/-! ## Scroll-clip analyzer (src/azul/display_list.rs lines 659-733) -/

/-- `azul-core::ui_solver::PositionedRectangle` (not in `src/`); modelled
from its use sites: solved bounds, resolved padding and resolved overflow
(src/azul/display_list.rs lines 675-688, 896). -/
structure PositionedRectangle where
  bounds : LayoutRect
  padding : ResolvedOffsets
  overflow : Overflow

/-- Modelled from the spec: the static content of a DOM node
(`azul::dom::NodeData`, not in `src/`), opaque except for being hashable. -/
structure NodeData where
  content : Nat

/-- `DomHash` (`azul::dom`, not in `src/`). -/
abbrev DomHash := Nat

/-- Modelled from the spec: "the id is derived from the hash of the node's
data" — `NodeData::calculate_node_data_hash` (`azul::dom`, not in `src/`),
a deterministic pure function of the node's content. -/
def calculate_node_data_hash (node : NodeData) : DomHash :=
  node.content

/-- `azul-core::ui_solver::ExternalScrollId` (not in `src/`): a hash value
paired with the pipeline id, as constructed at
src/azul/display_list.rs line 696. -/
structure ExternalScrollId where
  hash : DomHash
  pipeline_id : PipelineId

/-- `ScrollTagId` (`azul::dom`, not in `src/`): a hit-test tag; fresh tags
are minted from a global counter, modelled by threading the counter. -/
abbrev ScrollTagId := Nat

/-- `OverflowingScrollNode` (`azul-core::ui_solver`, not in `src/`), fields
as filled at src/azul/display_list.rs lines 705-710. -/
structure OverflowingScrollNode where
  child_rect : LayoutRect
  parent_external_scroll_id : ExternalScrollId
  parent_dom_hash : DomHash
  scroll_tag_id : ScrollTagId

/-- `ScrolledNodes` (`azul-core::ui_solver`, not in `src/`), as filled at
src/azul/display_list.rs line 713. -/
structure ScrolledNodes where
  overflowing_nodes : HMap NodeId OverflowingScrollNode
  tags_to_node_ids : HMap ScrollTagId NodeId

/-- `contains_rect_rounded` (src/azul/display_list.rs lines 718-733),
reproduced verbatim: note lines 720 and 725 of the source assign `a_y` and
`b_y` from `origin.x`. -/
def contains_rect_rounded (a : LayoutRect) (b : LayoutRect) : Bool :=
  let a_x := roundRust a.origin.x
  let a_y := roundRust a.origin.x
  let a_width := roundRust a.size.width
  let a_height := roundRust a.size.height
  let b_x := roundRust b.origin.x
  let b_y := roundRust b.origin.x
  let b_width := roundRust b.size.width
  let b_height := roundRust b.size.height
  decide (b_x ≥ a_x) && decide (b_y ≥ a_y) &&
    decide (b_x + b_width ≤ a_x + a_width) && decide (b_y + b_height ≤ a_y + a_height)

/-- The containment check as the spec words it ("comparing the x and y
axes independently, after rounding to the nearest pixel"); kept separate so
the divergence from `contains_rect_rounded` can be stated. -/
def contains_rect_rounded_spec (a : LayoutRect) (b : LayoutRect) : Bool :=
  let a_x := roundRust a.origin.x
  let a_y := roundRust a.origin.y
  let a_width := roundRust a.size.width
  let a_height := roundRust a.size.height
  let b_x := roundRust b.origin.x
  let b_y := roundRust b.origin.y
  let b_width := roundRust b.size.width
  let b_height := roundRust b.size.height
  decide (b_x ≥ a_x) && decide (b_y ≥ a_y) &&
    decide (b_x + b_width ≤ a_x + a_width) && decide (b_y + b_height ≤ a_y + a_height)

/-- Union of two rectangles (smallest rectangle covering both). -/
def LayoutRect.union_two (a b : LayoutRect) : LayoutRect :=
  let x := min a.origin.x b.origin.x
  let y := min a.origin.y b.origin.y
  let right := max (a.origin.x + a.size.width) (b.origin.x + b.size.width)
  let bottom := max (a.origin.y + a.size.height) (b.origin.y + b.size.height)
  { origin := { x := x, y := y }, size := { width := right - x, height := bottom - y } }

/-- Modelled from the spec: `LayoutRect::get_scroll_rect`
(`azul-core`, not in `src/`) — "compute the union bounding rectangle of all
children's positioned bounds"; `None` when the node has no children.  The
receiver (the parent's own bounds) does not enter the union. -/
def LayoutRect.get_scroll_rect (_self : LayoutRect) (children : List LayoutRect) :
    Option LayoutRect :=
  match children with
  | [] => Option.none
  | c :: rest => some (rest.foldl LayoutRect.union_two c)

/-- The loop body of `get_nodes_that_need_scroll_clip`
(src/azul/display_list.rs lines 673-711): for each parent, compute the
children scroll rect, skip when it is contained in the parent bounds or when
the parent's overflow is `visible`/`hidden`, otherwise synthesize the
external scroll id from the node-data hash and the pipeline id and a scroll
tag (reusing the node's hit-test tag or minting a fresh one from the
counter). -/
def get_nodes_that_need_scroll_clip_loop (node_hierarchy : NodeHierarchy)
    (display_list_rects : NodeId → DisplayRectangle) (dom_rects : NodeId → NodeData)
    (layouted_rects : NodeId → PositionedRectangle) (pipeline_id : PipelineId) :
    List (Nat × NodeId) → HMap NodeId OverflowingScrollNode →
      HMap ScrollTagId NodeId → Nat →
      (HMap NodeId OverflowingScrollNode × HMap ScrollTagId NodeId) × Nat
  | [], nodes, tags_to_node_ids, counter => ((nodes, tags_to_node_ids), counter)
  | (_, parent) :: rest, nodes, tags_to_node_ids, counter =>
    let parent_rect := layouted_rects parent
    match LayoutRect.get_scroll_rect parent_rect.bounds
        ((node_hierarchy.children parent).map
          (fun child_id => (layouted_rects child_id).bounds)) with
    | Option.none =>
      get_nodes_that_need_scroll_clip_loop node_hierarchy display_list_rects dom_rects
        layouted_rects pipeline_id rest nodes tags_to_node_ids counter
    | some children_scroll_rect =>
      if contains_rect_rounded parent_rect.bounds children_scroll_rect then
        get_nodes_that_need_scroll_clip_loop node_hierarchy display_list_rects dom_rects
          layouted_rects pipeline_id rest nodes tags_to_node_ids counter
      else if parent_rect.overflow = Overflow.visible ∨
          parent_rect.overflow = Overflow.hidden then
        get_nodes_that_need_scroll_clip_loop node_hierarchy display_list_rects dom_rects
          layouted_rects pipeline_id rest nodes tags_to_node_ids counter
      else
        let parent_dom_hash := calculate_node_data_hash (dom_rects parent)
        let parent_external_scroll_id : ExternalScrollId :=
          { hash := parent_dom_hash, pipeline_id := pipeline_id }
        let tc : ScrollTagId × Nat :=
          match (display_list_rects parent).tag with
          | some existing_tag => (existing_tag, counter)
          | Option.none => (counter, counter + 1)
        get_nodes_that_need_scroll_clip_loop node_hierarchy display_list_rects dom_rects
          layouted_rects pipeline_id rest
          (nodes.insert parent
            { child_rect := children_scroll_rect,
              parent_external_scroll_id := parent_external_scroll_id,
              parent_dom_hash := parent_dom_hash,
              scroll_tag_id := tc.1 })
          (tags_to_node_ids.insert tc.1 parent) tc.2

/-- `get_nodes_that_need_scroll_clip` (src/azul/display_list.rs lines
659-714).  `parents` is the solver's `node_depths` list; the trailing `Nat`
threads the global tag counter backing `ScrollTagId::new()`. -/
def get_nodes_that_need_scroll_clip (node_hierarchy : NodeHierarchy)
    (display_list_rects : NodeId → DisplayRectangle) (dom_rects : NodeId → NodeData)
    (layouted_rects : NodeId → PositionedRectangle) (parents : List (Nat × NodeId))
    (pipeline_id : PipelineId) (tag_counter : Nat) : ScrolledNodes × Nat :=
  let r := get_nodes_that_need_scroll_clip_loop node_hierarchy display_list_rects
    dom_rects layouted_rects pipeline_id parents HMap.empty HMap.empty tag_counter
  ({ overflowing_nodes := r.1.1, tags_to_node_ids := r.1.2 }, r.2)

/-- C3 (code bug): a child union rectangle that is fully contained in the
parent under the spec's independent-axes rounded comparison, for which the
analyzer nevertheless produces a `ScrolledNodes` entry, because
`contains_rect_rounded` compares the y axis using the x origin (lines
720/725 of src/azul/display_list.rs).  Parent bounds (0,0) 10×10 with
`overflow: scroll`; single child at (5,0) size 2×10. -/
theorem scroll_clip_entry_despite_containment :
    contains_rect_rounded_spec ⟨⟨0, 0⟩, ⟨10, 10⟩⟩ ⟨⟨5, 0⟩, ⟨2, 10⟩⟩ = true ∧
    contains_rect_rounded ⟨⟨0, 0⟩, ⟨10, 10⟩⟩ ⟨⟨5, 0⟩, ⟨2, 10⟩⟩ = false ∧
    (((get_nodes_that_need_scroll_clip
        ⟨fun n => if n = 0 then [1] else []⟩
        (fun _ => ⟨Option.none, ⟨[]⟩, {}, {}⟩)
        (fun n => ⟨n⟩)
        (fun n => if n = 0 then ⟨⟨⟨0, 0⟩, ⟨10, 10⟩⟩, ⟨0, 0, 0, 0⟩, Overflow.scroll⟩
          else ⟨⟨⟨5, 0⟩, ⟨2, 10⟩⟩, ⟨0, 0, 0, 0⟩, Overflow.scroll⟩)
        [(0, 0)] 0 0).1.overflowing_nodes.get? 0).isSome = true) := by
  have r0 : roundRust 0 = 0 := by norm_num [roundRust]
  have r2 : roundRust 2 = 2 := by norm_num [roundRust]
  have r5 : roundRust 5 = 5 := by norm_num [roundRust]
  have r10 : roundRust 10 = 10 := by norm_num [roundRust]
  have hc : contains_rect_rounded ⟨⟨0, 0⟩, ⟨10, 10⟩⟩ ⟨⟨5, 0⟩, ⟨2, 10⟩⟩ = false := by
    simp only [contains_rect_rounded, r0, r2, r5, r10]
    norm_num
  refine ⟨?_, hc, ?_⟩
  · simp only [contains_rect_rounded_spec, r0, r2, r5, r10]
    norm_num
  · simp only [get_nodes_that_need_scroll_clip, get_nodes_that_need_scroll_clip_loop,
      LayoutRect.get_scroll_rect]
    norm_num [hc, HMap.get?, HMap.insert, HMap.empty]
    rw [if_neg (by simp)]
    exact ⟨_, List.mem_singleton.mpr rfl⟩

/-- The correspondence between two analyzer node tables built from
structurally identical trees whose node ids differ by the renaming `σ`:
entries match up pairwise, with renamed keys and identical external scroll
ids. -/
def ScrollEntryRel (σ : NodeId → NodeId)
    (m₁ m₂ : HMap NodeId OverflowingScrollNode) : Prop :=
  List.Forall₂
    (fun e₁ e₂ => e₂.1 = σ e₁.1 ∧
      e₂.2.parent_external_scroll_id = e₁.2.parent_external_scroll_id)
    m₁.entries m₂.entries

theorem forall2_filter {α β : Type} {R : α → β → Prop} {p : α → Bool} {q : β → Bool}
    (hpq : ∀ a b, R a b → q b = p a) :
    ∀ {l₁ : List α} {l₂ : List β}, List.Forall₂ R l₁ l₂ →
      List.Forall₂ R (l₁.filter p) (l₂.filter q) := by
  intro l₁ l₂ h
  induction h with
  | nil => exact List.Forall₂.nil
  | @cons a b l₁ l₂ hR hl ih =>
    rw [List.filter_cons, List.filter_cons, hpq _ _ hR]
    by_cases hp : p a = true
    · rw [if_pos hp, if_pos hp]
      exact List.Forall₂.cons hR ih
    · rw [if_neg hp, if_neg hp]
      exact ih

theorem scroll_entry_rel_insert (σ : NodeId → NodeId) (hinj : Function.Injective σ)
    (m₁ m₂ : HMap NodeId OverflowingScrollNode) (k : NodeId)
    (v₁ v₂ : OverflowingScrollNode)
    (hv : v₂.parent_external_scroll_id = v₁.parent_external_scroll_id)
    (h : ScrollEntryRel σ m₁ m₂) :
    ScrollEntryRel σ (m₁.insert k v₁) (m₂.insert (σ k) v₂) := by
  refine List.Forall₂.cons ⟨rfl, hv⟩ ?_
  refine forall2_filter ?_ h
  intro a b hab
  have hk : (b.1 ≠ σ k) = (a.1 ≠ k) := by
    rw [hab.1]
    simp [hinj.ne_iff]
  simp only [hk]

theorem scroll_entry_rel_find? (σ : NodeId → NodeId) (hinj : Function.Injective σ)
    {l₁ l₂ : List (NodeId × OverflowingScrollNode)}
    (h : List.Forall₂
      (fun e₁ e₂ => e₂.1 = σ e₁.1 ∧
        e₂.2.parent_external_scroll_id = e₁.2.parent_external_scroll_id) l₁ l₂)
    (p : NodeId) :
    ((l₂.find? (fun e => decide (e.1 = σ p))).map
        (fun e => e.2.parent_external_scroll_id)) =
      ((l₁.find? (fun e => decide (e.1 = p))).map
        (fun e => e.2.parent_external_scroll_id)) := by
  induction h with
  | nil => rfl
  | @cons a b l₁ l₂ hR hl ih =>
    by_cases hp : a.1 = p
    · rw [List.find?_cons_of_pos _ (by simp only [decide_eq_true_eq]; rw [hR.1, hp]),
        List.find?_cons_of_pos _ (by simp only [decide_eq_true_eq]; exact hp)]
      simp [hR.2]
    · rw [List.find?_cons_of_neg _ (by
          simp only [decide_eq_true_eq]
          rw [hR.1]
          exact fun hcontra => hp (hinj hcontra)),
        List.find?_cons_of_neg _ (by simp only [decide_eq_true_eq]; exact hp)]
      exact ih

theorem scroll_entry_rel_get? (σ : NodeId → NodeId) (hinj : Function.Injective σ)
    {m₁ m₂ : HMap NodeId OverflowingScrollNode} (h : ScrollEntryRel σ m₁ m₂)
    (p : NodeId) :
    ((m₂.get? (σ p)).map (fun n => n.parent_external_scroll_id)) =
      ((m₁.get? p).map (fun n => n.parent_external_scroll_id)) := by
  unfold HMap.get?
  rw [Option.map_map, Option.map_map]
  exact scroll_entry_rel_find? σ hinj h p

theorem scroll_clip_loop_rel (σ : NodeId → NodeId) (hinj : Function.Injective σ)
    (h₁ h₂ : NodeHierarchy) (dr₁ dr₂ : NodeId → DisplayRectangle)
    (dom₁ dom₂ : NodeId → NodeData) (lay₁ lay₂ : NodeId → PositionedRectangle)
    (pipeline_id : PipelineId)
    (hch : ∀ i, h₂.children (σ i) = (h₁.children i).map σ)
    (hdom : ∀ i, dom₂ (σ i) = dom₁ i)
    (hlay : ∀ i, lay₂ (σ i) = lay₁ i) :
    ∀ (parents : List (Nat × NodeId)) (n₁ n₂ : HMap NodeId OverflowingScrollNode)
      (t₁ t₂ : HMap ScrollTagId NodeId) (c₁ c₂ : Nat),
      ScrollEntryRel σ n₁ n₂ →
      ScrollEntryRel σ
        (get_nodes_that_need_scroll_clip_loop h₁ dr₁ dom₁ lay₁ pipeline_id
          parents n₁ t₁ c₁).1.1
        (get_nodes_that_need_scroll_clip_loop h₂ dr₂ dom₂ lay₂ pipeline_id
          (parents.map (fun dp => (dp.1, σ dp.2))) n₂ t₂ c₂).1.1 := by
  intro parents
  induction parents with
  | nil => intro n₁ n₂ t₁ t₂ c₁ c₂ hrel; exact hrel
  | cons hd rest ih =>
    obtain ⟨d, parent⟩ := hd
    intro n₁ n₂ t₁ t₂ c₁ c₂ hrel
    have hbounds : ((h₂.children (σ parent)).map
        (fun child_id => (lay₂ child_id).bounds)) =
        ((h₁.children parent).map (fun child_id => (lay₁ child_id).bounds)) := by
      rw [hch, List.map_map]
      refine List.map_congr_left ?_
      intro c _
      simp [Function.comp, hlay c]
    simp only [List.map_cons, get_nodes_that_need_scroll_clip_loop, hbounds,
      hlay parent, hdom parent]
    cases hscroll : LayoutRect.get_scroll_rect (lay₁ parent).bounds
        ((h₁.children parent).map (fun child_id => (lay₁ child_id).bounds)) with
    | none => exact ih _ _ _ _ _ _ hrel
    | some children_scroll_rect =>
      by_cases hcont : contains_rect_rounded (lay₁ parent).bounds children_scroll_rect
      · simp only [if_pos hcont]
        exact ih _ _ _ _ _ _ hrel
      · simp only [if_neg hcont]
        by_cases hover : (lay₁ parent).overflow = Overflow.visible ∨
            (lay₁ parent).overflow = Overflow.hidden
        · simp only [if_pos hover]
          exact ih _ _ _ _ _ _ hrel
        · simp only [if_neg hover]
          exact ih _ _ _ _ _ _ (scroll_entry_rel_insert σ hinj _ _ _ _ _ rfl hrel)

/-- C6: external scroll ids are a function of node content and pipeline id
only.  Rebuilding the `ScrolledNodes` table from a structurally identical
tree whose in-memory node ids are renamed by any injective `σ` (same
children structure, same node data, same positioned rectangles; hit-test
tags and tag counters may differ arbitrarily) yields, for every node `p`,
the identical external-scroll-id at the corresponding node `σ p`. -/
theorem external_scroll_ids_stable (σ : NodeId → NodeId)
    (hinj : Function.Injective σ) (h₁ h₂ : NodeHierarchy)
    (dr₁ dr₂ : NodeId → DisplayRectangle) (dom₁ dom₂ : NodeId → NodeData)
    (lay₁ lay₂ : NodeId → PositionedRectangle) (parents : List (Nat × NodeId))
    (pipeline_id : PipelineId) (c₁ c₂ : Nat)
    (hch : ∀ i, h₂.children (σ i) = (h₁.children i).map σ)
    (hdom : ∀ i, dom₂ (σ i) = dom₁ i)
    (hlay : ∀ i, lay₂ (σ i) = lay₁ i) (p : NodeId) :
    (((get_nodes_that_need_scroll_clip h₂ dr₂ dom₂ lay₂
          (parents.map (fun dp => (dp.1, σ dp.2))) pipeline_id c₂).1.overflowing_nodes.get?
        (σ p)).map (fun n => n.parent_external_scroll_id)) =
    (((get_nodes_that_need_scroll_clip h₁ dr₁ dom₁ lay₁ parents
          pipeline_id c₁).1.overflowing_nodes.get? p).map
        (fun n => n.parent_external_scroll_id)) := by
  exact scroll_entry_rel_get? σ hinj
    (scroll_clip_loop_rel σ hinj h₁ h₂ dr₁ dr₂ dom₁ dom₂ lay₁ lay₂ pipeline_id
      hch hdom hlay parents _ _ _ _ c₁ c₂ List.Forall₂.nil) p

/-- C6 witness: the overflowing one-parent tree of the C3 scenario, renamed
by `σ = (· + 5)`, with different hit-test tags and a different tag counter:
node 5 of the renamed run carries the same external scroll id as node 0 of
the original run. -/
theorem external_scroll_ids_stable_witness :
    (((get_nodes_that_need_scroll_clip
          ⟨fun n => if n = 5 then [6] else []⟩
          (fun _ => ⟨some 99, ⟨[]⟩, {}, {}⟩)
          (fun n => ⟨n - 5⟩)
          (fun n => if n = 5 then ⟨⟨⟨0, 0⟩, ⟨10, 10⟩⟩, ⟨0, 0, 0, 0⟩, Overflow.scroll⟩
            else ⟨⟨⟨5, 0⟩, ⟨2, 10⟩⟩, ⟨0, 0, 0, 0⟩, Overflow.scroll⟩)
          [(0, 5)] 0 7).1.overflowing_nodes.get? 5).map
        (fun n => n.parent_external_scroll_id)) =
    (((get_nodes_that_need_scroll_clip
          ⟨fun n => if n = 0 then [1] else []⟩
          (fun _ => ⟨Option.none, ⟨[]⟩, {}, {}⟩)
          (fun n => ⟨n⟩)
          (fun n => if n = 0 then ⟨⟨⟨0, 0⟩, ⟨10, 10⟩⟩, ⟨0, 0, 0, 0⟩, Overflow.scroll⟩
            else ⟨⟨⟨5, 0⟩, ⟨2, 10⟩⟩, ⟨0, 0, 0, 0⟩, Overflow.scroll⟩)
          [(0, 0)] 0 0).1.overflowing_nodes.get? 0).map
        (fun n => n.parent_external_scroll_id)) := by
  refine external_scroll_ids_stable (fun n => n + 5)
    (fun a b h => Nat.add_right_cancel h)
    ⟨fun n => if n = 0 then [1] else []⟩
    ⟨fun n => if n = 5 then [6] else []⟩
    (fun _ => ⟨Option.none, ⟨[]⟩, {}, {}⟩)
    (fun _ => ⟨some 99, ⟨[]⟩, {}, {}⟩)
    (fun n => ⟨n⟩) (fun n => ⟨n - 5⟩)
    (fun n => if n = 0 then ⟨⟨⟨0, 0⟩, ⟨10, 10⟩⟩, ⟨0, 0, 0, 0⟩, Overflow.scroll⟩
      else ⟨⟨⟨5, 0⟩, ⟨2, 10⟩⟩, ⟨0, 0, 0, 0⟩, Overflow.scroll⟩)
    (fun n => if n = 5 then ⟨⟨⟨0, 0⟩, ⟨10, 10⟩⟩, ⟨0, 0, 0, 0⟩, Overflow.scroll⟩
      else ⟨⟨⟨5, 0⟩, ⟨2, 10⟩⟩, ⟨0, 0, 0, 0⟩, Overflow.scroll⟩)
    [(0, 0)] 0 0 7 ?_ ?_ ?_ 0
  · intro i
    by_cases hi : i = 0
    · subst hi; rfl
    · have h5 : ¬ (i + 5 = 5) :=
        fun h => hi (Nat.add_right_cancel (h.trans (Nat.zero_add 5).symm))
      simp [hi, h5]
  · intro i
    simp [Nat.add_sub_cancel]
  · intro i
    by_cases hi : i = 0
    · subst hi; rfl
    · have h5 : ¬ (i + 5 = 5) :=
        fun h => hi (Nat.add_right_cancel (h.trans (Nat.zero_add 5).symm))
      simp [hi, h5]


/-! ## GPU-texture callback loop of `do_layout_for_display_list::recurse`
(src/azul/display_list.rs lines 377-420) -/

/-- The GL calls observable in the callback loop: the reset sequence issued
by the builder, and whatever calls a callback itself makes (opaque). -/
inductive GlCall where
  | bindFramebuffer (target : Nat) (framebuffer : Nat)
  | disable (capability : Nat)
  | callbackCall (tag : Nat)

/-- `gl::FRAMEBUFFER`. -/
def GL_FRAMEBUFFER : Nat := 36160

/-- `gl::FRAMEBUFFER_SRGB`. -/
def GL_FRAMEBUFFER_SRGB : Nat := 36281

/-- `gl::MULTISAMPLE`. -/
def GL_MULTISAMPLE : Nat := 32925

/-- A GPU-texture-producing callback as the loop sees it: the GL calls it
issues while running and the texture it optionally returns
(`GlCallback` + `GlCallbackInfoUnchecked`, invoked at
src/azul/display_list.rs lines 389-404). -/
structure GlCallbackRun where
  calls : List GlCall
  texture : Option Texture

/-- The state reset the builder performs after every callback invocation
(src/azul/display_list.rs lines 406-409): bind the default framebuffer and
disable `FRAMEBUFFER_SRGB` and `MULTISAMPLE`. -/
def gl_state_reset_calls : List GlCall :=
  [GlCall.bindFramebuffer GL_FRAMEBUFFER 0,
   GlCall.disable GL_FRAMEBUFFER_SRGB,
   GlCall.disable GL_MULTISAMPLE]

/-- The `for (node_id, cb, ptr) in gltexture_callbacks` loop of `recurse`
(src/azul/display_list.rs lines 378-420): invoke each callback, then issue
the state reset, then store the texture in `solved_textures` if one was
produced.  The first component is the emitted GL call trace. -/
def render_gl_texture_callbacks (gltexture_callbacks : List (NodeId × GlCallbackRun)) :
    List GlCall × HMap NodeId Texture :=
  gltexture_callbacks.foldl
    (fun acc ncb =>
      let trace := acc.1 ++ ncb.2.calls ++ gl_state_reset_calls
      let solved_textures :=
        match ncb.2.texture with
        | some t => acc.2.insert ncb.1 t
        | Option.none => acc.2
      (trace, solved_textures))
    ([], HMap.empty)

theorem render_gl_texture_callbacks_trace_aux
    (gltexture_callbacks : List (NodeId × GlCallbackRun))
    (trace0 : List GlCall) (solved0 : HMap NodeId Texture) :
    (gltexture_callbacks.foldl
      (fun acc ncb =>
        let trace := acc.1 ++ ncb.2.calls ++ gl_state_reset_calls
        let solved_textures :=
          match ncb.2.texture with
          | some t => acc.2.insert ncb.1 t
          | Option.none => acc.2
        (trace, solved_textures))
      (trace0, solved0)).1 =
      trace0 ++ gltexture_callbacks.flatMap
        (fun ncb => ncb.2.calls ++ gl_state_reset_calls) := by
  induction gltexture_callbacks generalizing trace0 solved0 with
  | nil => simp
  | cons ncb rest ih =>
    simp only [List.foldl_cons, List.flatMap_cons]
    cases htex : ncb.2.texture with
    | none =>
      rw [ih]
      simp [List.append_assoc]
    | some t =>
      rw [ih]
      simp [List.append_assoc]

/-- C9: the GL call trace of the callback loop is exactly, for each
GPU-texture callback in order, the callback's own calls followed
immediately by the state reset (framebuffer rebound to the default
framebuffer 0, `FRAMEBUFFER_SRGB` and `MULTISAMPLE` disabled) — before any
later callback of the frame runs, and regardless of whether the callback
produced a texture. -/
theorem gl_callback_loop_resets_state (gltexture_callbacks : List (NodeId × GlCallbackRun)) :
    (render_gl_texture_callbacks gltexture_callbacks).1 =
      gltexture_callbacks.flatMap
        (fun ncb => ncb.2.calls ++
          [GlCall.bindFramebuffer GL_FRAMEBUFFER 0,
           GlCall.disable GL_FRAMEBUFFER_SRGB,
           GlCall.disable GL_MULTISAMPLE]) := by
  unfold render_gl_texture_callbacks
  rw [render_gl_texture_callbacks_trace_aux]
  rfl


end Azul
